import Mathlib

/-!
# MAX31856 thermocouple converter driver (`lib_MAX31856.cpp`)

A shallow embedding of the driver and the properties of its register access,
configuration encoding, temperature decoding and delay computation.

Conventions of the embedding.

* `uint8_t`, `uint32_t` values are natural numbers; every place where the C code
  stores into a narrower type carries an explicit `% 256` or `% 4294967296`.
* A C `int` that takes part in a bitwise operation is represented by its 32-bit
  two's-complement pattern (`intBits`).
* The SPI peripheral and the chip-select pin are the environment: an arbitrary
  deterministic machine `Spi β` over a device state `β`.  Everything the driver
  does to it is appended to a log of `Event`s, so that "which bus traffic was
  issued" is a statement about that log.
* `time(NULL)` is an input of the operation that calls it.
* A `float` is the rational number it denotes (or `NAN`); every `float`
  operation of the source rounds its exact result with `f32` (binary32, round
  to nearest, ties to even).
* The constants of `lib_MAX31856.h` (register addresses, field encodings, clear
  masks) are not part of the sources; they are the fields of `Header`, and the
  driver is parametrised by it.
-/

namespace MAX31856

/-! ## The bus -/

/-- One observable action on the bus: the chip-select pin is driven to `level`
(`ncs = level`), or a byte `out` is shifted out while `inp` is shifted back
(`spi.write(out)` returned `inp`). -/
inductive Event where
  | ncs (level : Nat)
  | write (out inp : Nat)
deriving DecidableEq, Repr

/-- The environment: what `spi.write` answers and how the device reacts to the
chip-select pin, over an arbitrary device state. -/
structure Spi (β : Type) where
  write : β → Nat → Nat × β
  ncs : β → Nat → β

/-- Diagnostic messages the driver prints through `LOG` (`printf`). -/
inductive Diag where
  | tcHigh
  | tcLow
  | tcRange
  | cjHigh
  | cjLow
  | cjRange
deriving DecidableEq, Repr

/-- Device state together with the log of everything done to the bus so far and
the messages printed so far. -/
structure Port (β : Type) where
  dev : β
  log : List Event
  console : List Diag

/-- Pattern of the low 32 bits of a C `int` (two's complement). -/
def intBits (m : Int) : Nat := (m % 4294967296).toNat

/-- Assignment `ncs = level`. -/
def setNcs {β : Type} (spi : Spi β) (p : Port β) (level : Nat) : Port β :=
  { p with dev := spi.ncs p.dev level, log := p.log ++ [Event.ncs level] }

/-- Call `spi.write(out)`: the answer and the port afterwards. -/
def spiWrite {β : Type} (spi : Spi β) (p : Port β) (out : Nat) : Nat × Port β :=
  let r := spi.write p.dev out
  (r.1, { p with dev := r.2, log := p.log ++ [Event.write out r.1] })

/-- Source `spiEnable`: `ncs=0`. -/
def spiEnable {β : Type} (spi : Spi β) (p : Port β) : Port β := setNcs spi p 0

/-- Source `spiDisable`: `ncs=1`. -/
def spiDisable {β : Type} (spi : Spi β) (p : Port β) : Port β := setNcs spi p 1

/-- Source `registerWriteByte`: select, send the address, send the value,
deselect, report `true`. -/
def registerWriteByte {β : Type} (spi : Spi β) (p : Port β) (write_address val : Nat) :
    Bool × Port β :=
  let p1 := spiEnable spi p
  let p2 := (spiWrite spi p1 write_address).2
  let p3 := (spiWrite spi p2 val).2
  let p4 := spiDisable spi p3
  (true, p4)

/-- Source `registerReadByte`: select, send the address, send a dummy `0` and
keep the answer as a `uint8_t`, deselect. -/
def registerReadByte {β : Type} (spi : Spi β) (p : Port β) (read_address : Nat) :
    Nat × Port β :=
  let p1 := spiEnable spi p
  let p2 := (spiWrite spi p1 read_address).2
  let r := spiWrite spi p2 0
  let buf_read := r.1 % 256
  let p4 := spiDisable spi r.2
  (buf_read, p4)

/-- Source `registerReadWriteByte`.  `buf_read` and `val` are `uint8_t`,
`clear_bits` is an `int`. -/
def registerReadWriteByte {β : Type} (spi : Spi β) (p : Port β)
    (read_address write_address : Nat) (clear_bits : Int) (val : Nat) : Bool × Port β :=
  let r1 := registerReadByte spi p read_address
  let buf_read := r1.1
  let buf_read := (buf_read &&& intBits clear_bits) % 256
  let buf_read := (buf_read ||| val) % 256
  let val := buf_read
  let w := registerWriteByte spi r1.2 write_address val
  let r2 := registerReadByte spi w.2 read_address
  let buf_read := r2.1
  (decide (buf_read = val), r2.2)


/-- Source `LOG(...)`: print one diagnostic message. -/
def LOG {β : Type} (p : Port β) (m : Diag) : Port β :=
  { p with console := p.console ++ [m] }

/-! ## Constants of the header -/

/-- The macros of `lib_MAX31856.h` used by the driver.  The header is not among
the sources, so the driver takes them as a parameter.  Field encodings and
addresses are bytes; the `*_CLEAR_BITS_*` masks are C `int`s. -/
structure Header where
  ADDRESS_CR0_READ : Nat
  ADDRESS_CR0_WRITE : Nat
  ADDRESS_CR1_READ : Nat
  ADDRESS_CR1_WRITE : Nat
  ADDRESS_MASK_READ : Nat
  ADDRESS_MASK_WRITE : Nat
  ADDRESS_CJTH_READ : Nat
  ADDRESS_CJTL_READ : Nat
  ADDRESS_LTCBH_READ : Nat
  ADDRESS_LTCBM_READ : Nat
  ADDRESS_LTCBL_READ : Nat
  ADDRESS_SR_READ : Nat
  CR0_CONV_MODE_NORMALLY_OFF : Nat
  CR0_CONV_MODE_NORMALLY_ON : Nat
  CR0_1_SHOT_MODE_NO_CONVERSION : Nat
  CR0_1_SHOT_MODE_ONE_CONVERSION : Nat
  CR0_OC_DETECT_DISABLED : Nat
  CR0_OC_DETECT_ENABLED_R_LESS_5k : Nat
  CR0_OC_DETECT_ENABLED_TC_LESS_2ms : Nat
  CR0_OC_DETECT_ENABLED_TC_MORE_2ms : Nat
  CR0_COLD_JUNC_ENABLE : Nat
  CR0_COLD_JUNC_DISABLE : Nat
  CR0_FAULT_MODE_COMPARATOR : Nat
  CR0_FAULT_MODE_INTERUPT : Nat
  CR0_FAULTCLR_DEFAULT_VAL : Nat
  CR0_FAULTCLR_RETURN_FAULTS_TO_ZERO : Nat
  CR0_FILTER_OUT_60Hz : Nat
  CR0_FILTER_OUT_50Hz : Nat
  CR1_AVG_TC_SAMPLES_1 : Nat
  CR1_AVG_TC_SAMPLES_2 : Nat
  CR1_AVG_TC_SAMPLES_4 : Nat
  CR1_AVG_TC_SAMPLES_8 : Nat
  CR1_AVG_TC_SAMPLES_16 : Nat
  CR1_TC_TYPE_B : Nat
  CR1_TC_TYPE_E : Nat
  CR1_TC_TYPE_J : Nat
  CR1_TC_TYPE_K : Nat
  CR1_TC_TYPE_N : Nat
  CR1_TC_TYPE_R : Nat
  CR1_TC_TYPE_S : Nat
  CR1_TC_TYPE_T : Nat
  CR1_TC_TYPE_VOLT_MODE_GAIN_8 : Nat
  CR1_TC_TYPE_VOLT_MODE_GAIN_32 : Nat
  MASK_CJ_FAULT_THRESHOLD_HIGH : Nat
  MASK_CJ_FAULT_THRESHOLD_LOW : Nat
  MASK_TC_FAULT_THRESHOLD_HIGH : Nat
  MASK_TC_FAULT_THRESHOLD_LOW : Nat
  MASK_OVER_UNDER_VOLT_FAULT : Nat
  MASK_OPEN_CIRCUIT_FAULT : Nat
  CR0_CLEAR_BITS_7 : Int
  CR0_CLEAR_BITS_6 : Int
  CR0_CLEAR_BITS_5_4 : Int
  CR0_CLEAR_BITS_3 : Int
  CR0_CLEAR_BITS_2 : Int
  CR0_CLEAR_BITS_1 : Int
  CR0_CLEAR_BITS_0 : Int
  CR1_CLEAR_BITS_6_4 : Int
  CR1_CLEAR_BITS_3_0 : Int
  MASK_CLEAR_BITS_5 : Int
  MASK_CLEAR_BITS_4 : Int
  MASK_CLEAR_BITS_3 : Int
  MASK_CLEAR_BITS_2 : Int
  MASK_CLEAR_BITS_1 : Int
  MASK_CLEAR_BITS_0 : Int
  ADDRESS_CJHF_WRITE : Nat
  ADDRESS_CJLF_WRITE : Nat
  ADDRESS_LTHFTH_WRITE : Nat
  ADDRESS_LTHFTL_WRITE : Nat
  ADDRESS_LTLFTH_WRITE : Nat
  ADDRESS_LTLFTL_WRITE : Nat
  ADDRESS_CJTO_WRITE : Nat

/-- Modelled from the spec: the missing header `lib_MAX31856.h`, instantiated
for worked examples.  Each field sits at the bit position the source names
(`Register:CR0 Bits: 7`, `CR0_CLEAR_BITS_7`, ...), each clear mask is the
complement of its field ("the mask that zeroes exactly the target field's
bits"), the sample field is `count = 2^field` in bits 6:4, and the addresses
follow the register map of the device (write address = read address + 0x80). -/
def datasheet : Header where
  ADDRESS_CR0_READ := 0x00
  ADDRESS_CR0_WRITE := 0x80
  ADDRESS_CR1_READ := 0x01
  ADDRESS_CR1_WRITE := 0x81
  ADDRESS_MASK_READ := 0x02
  ADDRESS_MASK_WRITE := 0x82
  ADDRESS_CJTH_READ := 0x0A
  ADDRESS_CJTL_READ := 0x0B
  ADDRESS_LTCBH_READ := 0x0C
  ADDRESS_LTCBM_READ := 0x0D
  ADDRESS_LTCBL_READ := 0x0E
  ADDRESS_SR_READ := 0x0F
  CR0_CONV_MODE_NORMALLY_OFF := 0x00
  CR0_CONV_MODE_NORMALLY_ON := 0x80
  CR0_1_SHOT_MODE_NO_CONVERSION := 0x00
  CR0_1_SHOT_MODE_ONE_CONVERSION := 0x40
  CR0_OC_DETECT_DISABLED := 0x00
  CR0_OC_DETECT_ENABLED_R_LESS_5k := 0x10
  CR0_OC_DETECT_ENABLED_TC_LESS_2ms := 0x20
  CR0_OC_DETECT_ENABLED_TC_MORE_2ms := 0x30
  CR0_COLD_JUNC_ENABLE := 0x00
  CR0_COLD_JUNC_DISABLE := 0x08
  CR0_FAULT_MODE_COMPARATOR := 0x00
  CR0_FAULT_MODE_INTERUPT := 0x04
  CR0_FAULTCLR_DEFAULT_VAL := 0x00
  CR0_FAULTCLR_RETURN_FAULTS_TO_ZERO := 0x02
  CR0_FILTER_OUT_60Hz := 0x00
  CR0_FILTER_OUT_50Hz := 0x01
  CR1_AVG_TC_SAMPLES_1 := 0x00
  CR1_AVG_TC_SAMPLES_2 := 0x10
  CR1_AVG_TC_SAMPLES_4 := 0x20
  CR1_AVG_TC_SAMPLES_8 := 0x30
  CR1_AVG_TC_SAMPLES_16 := 0x40
  CR1_TC_TYPE_B := 0x00
  CR1_TC_TYPE_E := 0x01
  CR1_TC_TYPE_J := 0x02
  CR1_TC_TYPE_K := 0x03
  CR1_TC_TYPE_N := 0x04
  CR1_TC_TYPE_R := 0x05
  CR1_TC_TYPE_S := 0x06
  CR1_TC_TYPE_T := 0x07
  CR1_TC_TYPE_VOLT_MODE_GAIN_8 := 0x08
  CR1_TC_TYPE_VOLT_MODE_GAIN_32 := 0x0C
  MASK_CJ_FAULT_THRESHOLD_HIGH := 0x20
  MASK_CJ_FAULT_THRESHOLD_LOW := 0x10
  MASK_TC_FAULT_THRESHOLD_HIGH := 0x08
  MASK_TC_FAULT_THRESHOLD_LOW := 0x04
  MASK_OVER_UNDER_VOLT_FAULT := 0x02
  MASK_OPEN_CIRCUIT_FAULT := 0x01
  CR0_CLEAR_BITS_7 := -0x81
  CR0_CLEAR_BITS_6 := -0x41
  CR0_CLEAR_BITS_5_4 := -0x31
  CR0_CLEAR_BITS_3 := -0x09
  CR0_CLEAR_BITS_2 := -0x05
  CR0_CLEAR_BITS_1 := -0x03
  CR0_CLEAR_BITS_0 := -0x02
  CR1_CLEAR_BITS_6_4 := -0x71
  CR1_CLEAR_BITS_3_0 := -0x10
  MASK_CLEAR_BITS_5 := -0x21
  MASK_CLEAR_BITS_4 := -0x11
  MASK_CLEAR_BITS_3 := -0x09
  MASK_CLEAR_BITS_2 := -0x05
  MASK_CLEAR_BITS_1 := -0x03
  MASK_CLEAR_BITS_0 := -0x02
  ADDRESS_CJHF_WRITE := 0x83
  ADDRESS_CJLF_WRITE := 0x84
  ADDRESS_LTHFTH_WRITE := 0x85
  ADDRESS_LTHFTL_WRITE := 0x86
  ADDRESS_LTLFTH_WRITE := 0x87
  ADDRESS_LTLFTL_WRITE := 0x88
  ADDRESS_CJTO_WRITE := 0x89

/-! ## Shapes of bus transactions in the log -/

/-- Events of one register read at `addr`: the device answered `x` to the
address byte and `r` to the dummy byte. -/
def readTxn (addr x r : Nat) : List Event :=
  [Event.ncs 0, Event.write addr x, Event.write 0 r, Event.ncs 1]

/-- Events of one register write of `val` at `addr`; `x`, `y` are the bytes
shifted back meanwhile. -/
def writeTxn (addr val x y : Nat) : List Event :=
  [Event.ncs 0, Event.write addr x, Event.write val y, Event.ncs 1]


/-! ## Numbers -/

/-- Value of a `uint32_t` bit pattern read as `int32_t`. -/
def toInt32 (u : Nat) : Int :=
  if u % 4294967296 < 2147483648 then (u % 4294967296 : Nat) else (u % 4294967296 : Nat) - 4294967296

/-- Value of the low 16 bits of `u` read as `int16_t`. -/
def toInt16 (u : Nat) : Int :=
  if u % 65536 < 32768 then (u % 65536 : Nat) else (u % 65536 : Nat) - 65536

/-- Round to the nearest integer, ties to the even one. -/
def roundHalfEven (q : ℚ) : ℤ :=
  let f := ⌊q⌋
  if q - f < 1 / 2 then f
  else if 1 / 2 < q - f then f + 1
  else if f % 2 = 0 then f else f + 1

/-- Number of halvings that bring `n` below 2, at most `fuel` of them; with
`fuel = n` this is the position of the highest set bit of `n`. -/
def log2Fuel : Nat → Nat → Nat
  | 0, _ => 0
  | fuel + 1, n => if n < 2 then 0 else log2Fuel fuel (n / 2) + 1

/-- The power `2^e` as a rational number. -/
def pow2 (e : ℤ) : ℚ :=
  if 0 ≤ e then ((2 ^ e.toNat : ℕ) : ℚ) else 1 / ((2 ^ (-e).toNat : ℕ) : ℚ)

/-- Binary exponent of a nonzero rational: the `e` with `2^e ≤ |x| < 2^(e+1)`. -/
def ilog2 (x : ℚ) : ℤ :=
  let e0 : ℤ := (log2Fuel x.num.natAbs x.num.natAbs : ℤ) - (log2Fuel x.den x.den : ℤ)
  if pow2 e0 ≤ |x| then e0 else e0 - 1

/-- Rounding of a real value to `float` (IEEE binary32): 24 significant bits,
round to nearest, ties to even.  The exponent range is not modelled; every
value the driver rounds lies between `2^-8` and `2^20` in magnitude, far from
both ends of it. -/
def f32 (x : ℚ) : ℚ :=
  if x = 0 then 0
  else
    let u : ℚ := pow2 (ilog2 x - 23)
    roundHalfEven (x / u) * u

/-- Conversion of a non-negative `float` to `uint32_t`: the fraction is
discarded. -/
def toU32 (x : ℚ) : Nat := ⌊x⌋.toNat % 4294967296

/-- Value of the low 8 bits of an integer read as `int8_t`. -/
def toInt8 (z : Int) : Int :=
  if z % 256 < 128 then z % 256 else z % 256 - 256

/-- Conversion of a floating-point value to an integer type: the fraction is
discarded (rounding toward zero). -/
def truncZ (x : ℚ) : ℤ := if 0 ≤ x then ⌊x⌋ else ⌈x⌉

/-- A `float` as the driver returns it: `NAN` or a number. -/
inductive Temp where
  | nan
  | val (q : ℚ)
deriving DecidableEq, Repr

/-! ## Driver state -/

/-- The data members of the class that the operations read or write.  Their
declarations are in the missing header; the flags hold what the source assigns
to them (`0`/`1`, or the filter byte), the time stamps and counters are
`uint32_t`. -/
structure State where
  samples : Nat
  init_MAX31856 : Bool
  filter_mode : Nat
  cold_junction_enabled : Nat
  conversion_mode : Nat
  voltage_mode : Bool
  lastReadTime : Nat
  thermocouple_conversion_count : Nat
  conversion_time : Nat
  prev_TC : Temp
deriving DecidableEq, Repr

/-! ## Configuration setters -/

/-- Source `setConversionMode` (CR0 bit 7). -/
def setConversionMode {β : Type} (H : Header) (spi : Spi β) (s : State) (p : Port β)
    (val : Nat) : Bool × State × Port β :=
  if val = H.CR0_CONV_MODE_NORMALLY_OFF ∨ val = H.CR0_CONV_MODE_NORMALLY_ON then
    let s1 := { s with conversion_mode := if val = H.CR0_CONV_MODE_NORMALLY_ON then 1 else 0 }
    let r := registerReadWriteByte spi p H.ADDRESS_CR0_READ H.ADDRESS_CR0_WRITE
      H.CR0_CLEAR_BITS_7 val
    (r.1, s1, r.2)
  else (false, s, p)

/-- Source `setOneShotMode` (CR0 bit 6). -/
def setOneShotMode {β : Type} (H : Header) (spi : Spi β) (s : State) (p : Port β)
    (val : Nat) : Bool × State × Port β :=
  if val = H.CR0_1_SHOT_MODE_NO_CONVERSION ∨ val = H.CR0_1_SHOT_MODE_ONE_CONVERSION then
    let r := registerReadWriteByte spi p H.ADDRESS_CR0_READ H.ADDRESS_CR0_WRITE
      H.CR0_CLEAR_BITS_6 val
    (r.1, s, r.2)
  else (false, s, p)

/-- Source `setOpenCircuitFaultDetection` (CR0 bits 5:4). -/
def setOpenCircuitFaultDetection {β : Type} (H : Header) (spi : Spi β) (s : State)
    (p : Port β) (val : Nat) : Bool × State × Port β :=
  if val = H.CR0_OC_DETECT_DISABLED ∨ val = H.CR0_OC_DETECT_ENABLED_R_LESS_5k
      ∨ val = H.CR0_OC_DETECT_ENABLED_TC_LESS_2ms
      ∨ val = H.CR0_OC_DETECT_ENABLED_TC_MORE_2ms then
    let r := registerReadWriteByte spi p H.ADDRESS_CR0_READ H.ADDRESS_CR0_WRITE
      H.CR0_CLEAR_BITS_5_4 val
    (r.1, s, r.2)
  else (false, s, p)

/-- Source `setColdJunctionDisable` (CR0 bit 3). -/
def setColdJunctionDisable {β : Type} (H : Header) (spi : Spi β) (s : State) (p : Port β)
    (val : Nat) : Bool × State × Port β :=
  if val = H.CR0_COLD_JUNC_ENABLE ∨ val = H.CR0_COLD_JUNC_DISABLE then
    let s1 := { s with cold_junction_enabled := if val = H.CR0_COLD_JUNC_ENABLE then 1 else 0 }
    let r := registerReadWriteByte spi p H.ADDRESS_CR0_READ H.ADDRESS_CR0_WRITE
      H.CR0_CLEAR_BITS_3 val
    (r.1, s1, r.2)
  else (false, s, p)

/-- Source `setFaultMode` (CR0 bit 2). -/
def setFaultMode {β : Type} (H : Header) (spi : Spi β) (s : State) (p : Port β)
    (val : Nat) : Bool × State × Port β :=
  if val = H.CR0_FAULT_MODE_COMPARATOR ∨ val = H.CR0_FAULT_MODE_INTERUPT then
    let r := registerReadWriteByte spi p H.ADDRESS_CR0_READ H.ADDRESS_CR0_WRITE
      H.CR0_CLEAR_BITS_2 val
    (r.1, s, r.2)
  else (false, s, p)

/-- Source `setFaultStatusClear` (CR0 bit 1). -/
def setFaultStatusClear {β : Type} (H : Header) (spi : Spi β) (s : State) (p : Port β)
    (val : Nat) : Bool × State × Port β :=
  if val = H.CR0_FAULTCLR_DEFAULT_VAL ∨ val = H.CR0_FAULTCLR_RETURN_FAULTS_TO_ZERO then
    let r := registerReadWriteByte spi p H.ADDRESS_CR0_READ H.ADDRESS_CR0_WRITE
      H.CR0_CLEAR_BITS_1 val
    (r.1, s, r.2)
  else (false, s, p)

/-- Source `setEmiFilterFreq` (CR0 bit 0). -/
def setEmiFilterFreq {β : Type} (H : Header) (spi : Spi β) (s : State) (p : Port β)
    (val : Nat) : Bool × State × Port β :=
  if val = H.CR0_FILTER_OUT_60Hz ∨ val = H.CR0_FILTER_OUT_50Hz then
    let s1 := { s with filter_mode := val }
    let r := registerReadWriteByte spi p H.ADDRESS_CR0_READ H.ADDRESS_CR0_WRITE
      H.CR0_CLEAR_BITS_0 val
    (r.1, s1, r.2)
  else (false, s, p)

/-- Source `setNumSamplesAvg` (CR1 bits 6:4): `samples = 1 << (val >> 4)`. -/
def setNumSamplesAvg {β : Type} (H : Header) (spi : Spi β) (s : State) (p : Port β)
    (val : Nat) : Bool × State × Port β :=
  if val = H.CR1_AVG_TC_SAMPLES_1 ∨ val = H.CR1_AVG_TC_SAMPLES_2
      ∨ val = H.CR1_AVG_TC_SAMPLES_4 ∨ val = H.CR1_AVG_TC_SAMPLES_8
      ∨ val = H.CR1_AVG_TC_SAMPLES_16 then
    let s1 := { s with samples := 1 <<< (val >>> 4) }
    let r := registerReadWriteByte spi p H.ADDRESS_CR1_READ H.ADDRESS_CR1_WRITE
      H.CR1_CLEAR_BITS_6_4 val
    (r.1, s1, r.2)
  else (false, s, p)

/-- Source `setThermocoupleType` (CR1 bits 3:0). -/
def setThermocoupleType {β : Type} (H : Header) (spi : Spi β) (s : State) (p : Port β)
    (val : Nat) : Bool × State × Port β :=
  if val = H.CR1_TC_TYPE_B ∨ val = H.CR1_TC_TYPE_E ∨ val = H.CR1_TC_TYPE_J
      ∨ val = H.CR1_TC_TYPE_K ∨ val = H.CR1_TC_TYPE_N ∨ val = H.CR1_TC_TYPE_R
      ∨ val = H.CR1_TC_TYPE_S ∨ val = H.CR1_TC_TYPE_T
      ∨ val = H.CR1_TC_TYPE_VOLT_MODE_GAIN_8 ∨ val = H.CR1_TC_TYPE_VOLT_MODE_GAIN_32 then
    let volt : Bool :=
      decide (val = H.CR1_TC_TYPE_VOLT_MODE_GAIN_8 ∨ val = H.CR1_TC_TYPE_VOLT_MODE_GAIN_32)
    let s1 := { s with voltage_mode := volt }
    let r := registerReadWriteByte spi p H.ADDRESS_CR1_READ H.ADDRESS_CR1_WRITE
      H.CR1_CLEAR_BITS_3_0 val
    (r.1, s1, r.2)
  else (false, s, p)

/-- Source `setFaultMasks` (MASK bits 5:0): `if(enable) val = 0;` and then the
`switch` over the six fault sources. -/
def setFaultMasks {β : Type} (H : Header) (spi : Spi β) (s : State) (p : Port β)
    (val : Nat) (enable : Bool) : Bool × State × Port β :=
  let val := if enable then 0 else val
  if val = H.MASK_CJ_FAULT_THRESHOLD_HIGH then
    let r := registerReadWriteByte spi p H.ADDRESS_MASK_READ H.ADDRESS_MASK_WRITE
      H.MASK_CLEAR_BITS_5 val
    (r.1, s, r.2)
  else if val = H.MASK_CJ_FAULT_THRESHOLD_LOW then
    let r := registerReadWriteByte spi p H.ADDRESS_MASK_READ H.ADDRESS_MASK_WRITE
      H.MASK_CLEAR_BITS_4 val
    (r.1, s, r.2)
  else if val = H.MASK_TC_FAULT_THRESHOLD_HIGH then
    let r := registerReadWriteByte spi p H.ADDRESS_MASK_READ H.ADDRESS_MASK_WRITE
      H.MASK_CLEAR_BITS_3 val
    (r.1, s, r.2)
  else if val = H.MASK_TC_FAULT_THRESHOLD_LOW then
    let r := registerReadWriteByte spi p H.ADDRESS_MASK_READ H.ADDRESS_MASK_WRITE
      H.MASK_CLEAR_BITS_2 val
    (r.1, s, r.2)
  else if val = H.MASK_OVER_UNDER_VOLT_FAULT then
    let r := registerReadWriteByte spi p H.ADDRESS_MASK_READ H.ADDRESS_MASK_WRITE
      H.MASK_CLEAR_BITS_1 val
    (r.1, s, r.2)
  else if val = H.MASK_OPEN_CIRCUIT_FAULT then
    let r := registerReadWriteByte spi p H.ADDRESS_MASK_READ H.ADDRESS_MASK_WRITE
      H.MASK_CLEAR_BITS_0 val
    (r.1, s, r.2)
  else (false, s, p)

/-- Source `setFaultThresholds`.  `temperature` is the `float` argument.

* Cold-junction cases: `registerWriteByte(ADDRESS_CJHF_WRITE, temperature)`
  converts the `float` to the `uint8_t` parameter (fraction discarded; the C
  conversion is defined for values in `0..255` only, the model wraps the rest).
* Thermocouple cases: `int16_t temperature_multi_byte = temperature*4.0;` is an
  exact `double` product converted to `int16_t`.  In
  `(temperature_multi_byte)&(0xFF00) >> 8` the shift binds tighter than the
  `&`, so the operand of `&` is `0xFF00 >> 8`.  Each byte passes through
  `int8_t temperature_byte[i]` into the `uint8_t` parameter, which leaves its
  low 8 bits as they are.
* `a && b` evaluates `b` only when `a` is `true`. -/
def setFaultThresholds {β : Type} (H : Header) (spi : Spi β) (s : State) (p : Port β)
    (val : Nat) (temperature : ℚ) : Bool × State × Port β :=
  if val = H.MASK_CJ_FAULT_THRESHOLD_HIGH then
    let r := registerWriteByte spi p H.ADDRESS_CJHF_WRITE ((truncZ temperature % 256).toNat)
    (r.1, s, r.2)
  else if val = H.MASK_CJ_FAULT_THRESHOLD_LOW then
    let r := registerWriteByte spi p H.ADDRESS_CJLF_WRITE ((truncZ temperature % 256).toNat)
    (r.1, s, r.2)
  else if val = H.MASK_TC_FAULT_THRESHOLD_HIGH then
    let temperature_multi_byte : Int := toInt16 ((truncZ (temperature * 4) % 65536).toNat)
    let byte0 := (intBits temperature_multi_byte &&& (0xFF00 >>> 8)) % 256
    let byte1 := (intBits temperature_multi_byte &&& 0x00FF) % 256
    let r0 := registerWriteByte spi p H.ADDRESS_LTHFTH_WRITE byte0
    if r0.1 = true then
      let r1 := registerWriteByte spi r0.2 H.ADDRESS_LTHFTL_WRITE byte1
      (r1.1, s, r1.2)
    else (false, s, r0.2)
  else if val = H.MASK_TC_FAULT_THRESHOLD_LOW then
    let temperature_multi_byte : Int := toInt16 ((truncZ (temperature * 4) % 65536).toNat)
    let byte0 := (intBits temperature_multi_byte &&& (0xFF00 >>> 8)) % 256
    let byte1 := (intBits temperature_multi_byte &&& 0x00FF) % 256
    let r0 := registerWriteByte spi p H.ADDRESS_LTLFTH_WRITE byte0
    if r0.1 = true then
      let r1 := registerWriteByte spi r0.2 H.ADDRESS_LTLFTL_WRITE byte1
      (r1.1, s, r1.2)
    else (false, s, r0.2)
  else (false, s, p)

/-- Source `coldJunctionOffset`.  `temperature` is the `float` argument;
`int8_t temp_val=temperature*16.0f;` is a `float` product converted to `int8_t`
(fraction discarded), and passing `temp_val` as the `uint8_t` parameter keeps
its low 8 bits. -/
def coldJunctionOffset {β : Type} (H : Header) (spi : Spi β) (s : State) (p : Port β)
    (temperature : ℚ) : Bool × State × Port β :=
  if temperature > 7.9375 ∨ temperature < -8.0 then (false, s, p)
  else
    let temp_val : Int := toInt8 (truncZ (f32 (temperature * f32 16)))
    let r := registerWriteByte spi p H.ADDRESS_CJTO_WRITE ((temp_val % 256).toNat)
    (r.1, s, r.2)

/-! ## Fault interpretation -/

/-- Source `checkFaultsThermocoupleConnection`: `!registerReadByte(ADDRESS_SR_READ)`. -/
def checkFaultsThermocoupleConnection {β : Type} (H : Header) (spi : Spi β) (p : Port β) :
    Bool × Port β :=
  let r := registerReadByte spi p H.ADDRESS_SR_READ
  (decide (r.1 = 0), r.2)

/-- Source `checkFaultsThermocoupleThresholds`.  The result is `none` on the one
path of the source that leaves `return_int` unassigned. -/
def checkFaultsThermocoupleThresholds {β : Type} (H : Header) (spi : Spi β) (p : Port β) :
    Option Nat × Port β :=
  let r := registerReadByte spi p H.ADDRESS_SR_READ
  let fault_byte := r.1
  let p := r.2
  if fault_byte &&& 0x4C = 0 then (some 0, p)
  else if fault_byte &&& 0x40 = 0 then
    if fault_byte &&& 0x08 ≠ 0 then (some 1, LOG p Diag.tcHigh)
    else if fault_byte &&& 0x04 ≠ 0 then (some 2, LOG p Diag.tcLow)
    else (none, p)
  else
    let p := LOG p Diag.tcRange
    if fault_byte &&& 0x08 ≠ 0 then (some 4, LOG p Diag.tcHigh)
    else if fault_byte &&& 0x04 ≠ 0 then (some 5, LOG p Diag.tcLow)
    else (some 3, p)

/-- Source `checkFaultsColdJunctionThresholds`.  The result is `none` on the one
path of the source that leaves `return_int` unassigned. -/
def checkFaultsColdJunctionThresholds {β : Type} (H : Header) (spi : Spi β) (p : Port β) :
    Option Nat × Port β :=
  let r := registerReadByte spi p H.ADDRESS_SR_READ
  let fault_byte := r.1
  let p := r.2
  if fault_byte &&& 0xB0 = 0 then (some 0, p)
  else if fault_byte &&& 0x80 = 0 then
    if fault_byte &&& 0x20 ≠ 0 then (some 1, LOG p Diag.cjHigh)
    else if fault_byte &&& 0x10 ≠ 0 then (some 2, LOG p Diag.cjLow)
    else (none, p)
  else
    let p := LOG p Diag.cjRange
    if fault_byte &&& 0x20 ≠ 0 then (some 4, LOG p Diag.cjHigh)
    else if fault_byte &&& 0x10 ≠ 0 then (some 5, LOG p Diag.cjLow)
    else (some 3, p)

/-! ## Acquisition and decoding -/

/-- Value of `temp_int` in the source `calculateDelayTime` before the
cold-junction adjustment: `82+(samples-1)*33.33f` and its three siblings,
evaluated in `float` and converted to `uint32_t`. -/
def delayUnits (s : State) : Nat :=
  if s.conversion_mode = 0 ∨ s.thermocouple_conversion_count = 0 then
    if s.filter_mode = 0 then
      toU32 (f32 (82 + f32 (f32 ((s.samples : ℚ) - 1) * f32 (3333 / 100))))
    else
      toU32 (f32 (98 + f32 (f32 ((s.samples : ℚ) - 1) * f32 40)))
  else
    if s.filter_mode = 0 then
      toU32 (f32 (82 + f32 (f32 ((s.samples : ℚ) - 1) * f32 (1667 / 100))))
    else
      toU32 (f32 (98 + f32 (f32 ((s.samples : ℚ) - 1) * f32 20)))

/-- Source `calculateDelayTime`: `temp_int` is a `uint32_t`, so `temp_int-25`
and `1000*temp_int` are taken modulo `2^32`. -/
def calculateDelayTime (s : State) : State :=
  let temp_int := delayUnits s
  let temp_int :=
    if s.cold_junction_enabled = 0 then (temp_int + 4294967296 - 25) % 4294967296
    else temp_int
  { s with conversion_time := (1000 * temp_int) % 4294967296 }

/-- Value the source `readTC` computes from the three register bytes:
`temp = (b0 << 0x18) + (b1 << 0x10) + (b2 << 0x08)` as `int32_t`, then
`(temp >> 0x0D) * 0.0078125` stored into the `float` `prev_TC`.  The product of
the shifted integer and `2^-7` is exact in `double`; the store rounds it to
`float`. -/
def decodeTC (b0 b1 b2 : Nat) : ℚ :=
  let temp : Int :=
    toInt32 (((b0 &&& 0xFF) <<< 0x18) + ((b1 &&& 0xFF) <<< 0x10) + ((b2 &&& 0xFF) <<< 0x08))
  f32 (((temp >>> (0x0D : Nat) : Int) : ℚ) * (1 / 128))

/-- Value the source `readCJ` computes from the two register bytes:
`int16_t temp = (b0 << 8) + b1` and `temp/256.0` returned as `float`. -/
def decodeCJ (b0 b1 : Nat) : ℚ :=
  let temp : Int := toInt16 (((b0 &&& 0xFF) <<< 8) + (b1 &&& 0xFF))
  f32 ((temp : ℚ) / 256)

/-- Tail of the source `readTC` (the three statements after the `if`): count
the read, report threshold faults, return the cached value. -/
def readTC_cached {β : Type} (H : Header) (spi : Spi β) (s : State) (p : Port β) :
    Temp × State × Port β :=
  let s1 := { s with thermocouple_conversion_count :=
    (s.thermocouple_conversion_count + 1) % 4294967296 }
  let t := checkFaultsThermocoupleThresholds H spi p
  (s1.prev_TC, s1, t.2)

/-- Opening of the source `readTC`: in normally-off conversion mode
(`conversion_mode==0`) request one conversion, fold the setter's result into
`init_MAX31856` (`&=`) and reset `thermocouple_conversion_count`. -/
def readTC_trigger {β : Type} (H : Header) (spi : Spi β) (s : State) (p : Port β) :
    State × Port β :=
  if s.conversion_mode = 0 then
    let r := setOneShotMode H spi s p H.CR0_1_SHOT_MODE_ONE_CONVERSION
    ({ r.2.1 with init_MAX31856 := r.2.1.init_MAX31856 && r.1,
                  thermocouple_conversion_count := 0 }, r.2.2)
  else (s, p)

/-- `uint32_t tm = time(NULL)*1000000;` of the source `readTC`. -/
def timeMicros (now : Nat) : Nat := (now * 1000000) % 4294967296

/-- `uint32_t duration = tm - lastReadTime;` of the source `readTC`. -/
def elapsed (s : State) (now : Nat) : Nat :=
  (timeMicros now + 4294967296 - s.lastReadTime % 4294967296) % 4294967296

/-- Loop of the source `readTC`,
`for(int i=0; i<3; i++) buf_read[i] = registerReadByte(buf_write[i]);` over
`ADDRESS_LTCBH_READ`, `ADDRESS_LTCBM_READ`, `ADDRESS_LTCBL_READ`: the three
bytes and the port afterwards. -/
def readTC_bytes {β : Type} (H : Header) (spi : Spi β) (p : Port β) :
    (Nat × Nat × Nat) × Port β :=
  let r0 := registerReadByte spi p H.ADDRESS_LTCBH_READ
  let r1 := registerReadByte spi r0.2 H.ADDRESS_LTCBM_READ
  let r2 := registerReadByte spi r1.2 H.ADDRESS_LTCBL_READ
  ((r0.1, r1.1, r2.1), r2.2)

/-- Source `readTC`.  `now` is what `time(NULL)` returns. -/
def readTC {β : Type} (H : Header) (spi : Spi β) (s : State) (p : Port β) (now : Nat) :
    Temp × State × Port β :=
  let sp := readTC_trigger H spi s p
  if sp.1.init_MAX31856 = false then (Temp.nan, sp.1, sp.2)
  else
    let s1 := calculateDelayTime sp.1
    let c := checkFaultsThermocoupleConnection H spi sp.2
    if c.1 = true then
      let duration := elapsed s1 now
      let s2 := { s1 with lastReadTime := timeMicros now }
      if duration > s2.conversion_time then
        let b := readTC_bytes H spi c.2
        let v := Temp.val (decodeTC b.1.1 b.1.2.1 b.1.2.2)
        (v, { s2 with prev_TC := v }, b.2)
      else readTC_cached H spi s2 c.2
    else readTC_cached H spi s1 c.2

/-- Source `readCJ`. -/
def readCJ {β : Type} (H : Header) (spi : Spi β) (s : State) (p : Port β) :
    Temp × State × Port β :=
  if s.init_MAX31856 = false then (Temp.nan, s, p)
  else
    let r0 := registerReadByte spi p H.ADDRESS_CJTH_READ
    let r1 := registerReadByte spi r0.2 H.ADDRESS_CJTL_READ
    (Temp.val (decodeCJ r0.1 r1.1), s, r1.2)

/-! ## Construction and sequences of operations -/

/-- Source constructor `MAX31856::MAX31856`.  `members` holds the values the data
members have when the constructor body starts (their default initializers are
in the missing header); the initializer list then sets `samples(_samples)`.
`p` is the port after `spi.format(8,3)`, `now` is what `time(NULL)` returns;
`wait_us` changes nothing the driver holds. -/
def construct {β : Type} (H : Header) (spi : Spi β) (members : State) (p : Port β)
    (_type _fltr _samples _conversion_mode now : Nat) : State × Port β :=
  let s0 := { members with samples := _samples }
  let r1 := setThermocoupleType H spi s0 p _type
  let s1 := { r1.2.1 with init_MAX31856 := r1.2.1.init_MAX31856 && r1.1 }
  let r2 := setEmiFilterFreq H spi s1 r1.2.2 _fltr
  let s2 := { r2.2.1 with init_MAX31856 := r2.2.1.init_MAX31856 && r2.1 }
  let r3 := setNumSamplesAvg H spi s2 r2.2.2 _samples
  let s3 := { r3.2.1 with init_MAX31856 := r3.2.1.init_MAX31856 && r3.1 }
  let r4 := setConversionMode H spi s3 r3.2.2 _conversion_mode
  let s4 := { r4.2.1 with init_MAX31856 := r4.2.1.init_MAX31856 && r4.1 }
  ({ s4 with lastReadTime := now % 4294967296 }, r4.2.2)

/-- One call of an operation of the driver, with its arguments (and, for
`readTC`, the clock value it sees). -/
inductive Op where
  | readTC (now : Nat)
  | readCJ
  | checkFaultsThermocoupleThresholds
  | checkFaultsColdJunctionThresholds
  | checkFaultsThermocoupleConnection
  | setConversionMode (val : Nat)
  | setOneShotMode (val : Nat)
  | setOpenCircuitFaultDetection (val : Nat)
  | setColdJunctionDisable (val : Nat)
  | setFaultMode (val : Nat)
  | setFaultStatusClear (val : Nat)
  | setEmiFilterFreq (val : Nat)
  | setNumSamplesAvg (val : Nat)
  | setThermocoupleType (val : Nat)
  | setFaultMasks (val : Nat) (enable : Bool)
  | setFaultThresholds (val : Nat) (temperature : ℚ)
  | coldJunctionOffset (temperature : ℚ)

/-- Driver state and port after one operation (its return value dropped). -/
def perform {β : Type} (H : Header) (spi : Spi β) (sp : State × Port β) :
    Op → State × Port β
  | Op.readTC now => (readTC H spi sp.1 sp.2 now).2
  | Op.readCJ => (readCJ H spi sp.1 sp.2).2
  | Op.checkFaultsThermocoupleThresholds =>
      (sp.1, (checkFaultsThermocoupleThresholds H spi sp.2).2)
  | Op.checkFaultsColdJunctionThresholds =>
      (sp.1, (checkFaultsColdJunctionThresholds H spi sp.2).2)
  | Op.checkFaultsThermocoupleConnection =>
      (sp.1, (checkFaultsThermocoupleConnection H spi sp.2).2)
  | Op.setConversionMode val => (setConversionMode H spi sp.1 sp.2 val).2
  | Op.setOneShotMode val => (setOneShotMode H spi sp.1 sp.2 val).2
  | Op.setOpenCircuitFaultDetection val => (setOpenCircuitFaultDetection H spi sp.1 sp.2 val).2
  | Op.setColdJunctionDisable val => (setColdJunctionDisable H spi sp.1 sp.2 val).2
  | Op.setFaultMode val => (setFaultMode H spi sp.1 sp.2 val).2
  | Op.setFaultStatusClear val => (setFaultStatusClear H spi sp.1 sp.2 val).2
  | Op.setEmiFilterFreq val => (setEmiFilterFreq H spi sp.1 sp.2 val).2
  | Op.setNumSamplesAvg val => (setNumSamplesAvg H spi sp.1 sp.2 val).2
  | Op.setThermocoupleType val => (setThermocoupleType H spi sp.1 sp.2 val).2
  | Op.setFaultMasks val enable => (setFaultMasks H spi sp.1 sp.2 val enable).2
  | Op.setFaultThresholds val temperature =>
      (setFaultThresholds H spi sp.1 sp.2 val temperature).2
  | Op.coldJunctionOffset temperature => (coldJunctionOffset H spi sp.1 sp.2 temperature).2

/-- Driver state and port after a sequence of operations. -/
def performAll {β : Type} (H : Header) (spi : Spi β) (sp : State × Port β) (ops : List Op) :
    State × Port β :=
  ops.foldl (perform H spi) sp

/-! ## A register file as the device -/

/-- Device state of the register-file model: the register contents by read
address, whether the chip is selected, and the address byte received in the
current transaction. -/
structure RegFile where
  regs : Nat → Nat
  selected : Bool
  addr : Option Nat

/-- Modelled from the spec: the faithful register model on the serial bus ("a
read of a register returns the byte last written to it").  Chip select low
opens a transaction whose first byte is the address; an address below `0x80`
makes the next byte shifted back the register's content, an address from
`0x80` up makes the next byte shifted out the new content of register
`address - 0x80`. -/
def regFileSpi : Spi RegFile where
  ncs d level := { d with selected := decide (level = 0), addr := none }
  write d out :=
    if d.selected = true then
      match d.addr with
      | none => (0, { d with addr := some out })
      | some a =>
        if a < 0x80 then (d.regs a, d)
        else (0, { d with regs := Function.update d.regs (a - 0x80) (out % 256) })
    else (0, d)

/-- A port on a register file holding `regs`, idle, nothing logged. -/
def regFilePort (regs : Nat → Nat) : Port RegFile :=
  { dev := { regs := regs, selected := false, addr := none }, log := [], console := [] }

/-- A bus whose data line is stuck low: every byte shifted back is `0`. -/
def stuckLowSpi : Spi Unit where
  write _ _ := (0, ())
  ncs _ _ := ()

/-! ## Quantities named by the specification -/

/-- The bytes `h:m:l` read as a 24-bit big-endian two's-complement integer. -/
def signed24 (h m l : Nat) : Int :=
  if h * 65536 + m * 256 + l < 8388608 then (h * 65536 + m * 256 + l : Nat)
  else (h * 65536 + m * 256 + l : Nat) - 16777216

/-- The bytes `h:l` read as a 16-bit big-endian two's-complement integer. -/
def signed16 (h l : Nat) : Int :=
  if h * 256 + l < 32768 then (h * 256 + l : Nat) else (h * 256 + l : Nat) - 65536

/-- The truncated delay of the specification, in milliseconds, computed in exact
arithmetic: `trunc(base + (n - 1) * per)` with `(base, per)` = `(82, 33.33)` at
60Hz and `(98, 40.00)` at 50Hz, or `(82, 16.67)` and `(98, 20.00)` once a
continuous conversion has completed since the last trigger. -/
def delayTrunc (hz50 completed : Bool) (n : Nat) : ℤ :=
  let base : ℚ := if hz50 then 98 else 82
  let per : ℚ :=
    if completed then (if hz50 then 20.00 else 16.67) else (if hz50 then 40.00 else 33.33)
  ⌊base + ((n : ℚ) - 1) * per⌋

/-- The delay formula of the specification: `1000 * (trunc(...) - c)` with
`c = 25` when cold-junction compensation is disabled and `0` otherwise. -/
def delayFormula (hz50 completed cjDisabled : Bool) (n : Nat) : ℤ :=
  1000 * (delayTrunc hz50 completed n - (if cjDisabled then 25 else 0))

/-- The severity code of the specification from the three flags: `R` out of
natural range, `H` above the high threshold, `L` below the low threshold. -/
def severity (R H L : Bool) : Nat :=
  if R then (if H then 4 else if L then 5 else 3)
  else (if H then 1 else if L then 2 else 0)

/-- A status byte's cold-junction flags moved to the thermocouple positions:
bit `0x80` to `0x40`, bit `0x20` to `0x08`, bit `0x10` to `0x04`. -/
def cjAsTc (b : Nat) : Nat :=
  ((b &&& 0x80) >>> 1) ||| ((b &&& 0x20) >>> 2) ||| ((b &&& 0x10) >>> 2)

/-- The sample-average encodings carry the count's exponent in bits 6:4
(`count = 2^field`), which the header must provide for `samples` to be a count
in {1,2,4,8,16}. -/
def SampleCodes (H : Header) : Prop :=
  H.CR1_AVG_TC_SAMPLES_1 >>> 4 = 0 ∧ H.CR1_AVG_TC_SAMPLES_2 >>> 4 = 1 ∧
  H.CR1_AVG_TC_SAMPLES_4 >>> 4 = 2 ∧ H.CR1_AVG_TC_SAMPLES_8 >>> 4 = 3 ∧
  H.CR1_AVG_TC_SAMPLES_16 >>> 4 = 4

/-! ## Worked examples -/

/-- An initialized driver in normally-off (on-demand) conversion mode: one
sample, 60Hz filter, cold junction enabled, nothing read yet. -/
def onDemandState : State :=
  { samples := 1, init_MAX31856 := true, filter_mode := 0, cold_junction_enabled := 1,
    conversion_mode := 0, voltage_mode := false, lastReadTime := 0,
    thermocouple_conversion_count := 0, conversion_time := 0, prev_TC := Temp.val 0 }

/-- An initialized driver in continuous conversion mode that has already taken
three throttled reads: 16 samples, 60Hz filter, cold junction disabled. -/
def continuousState : State :=
  { samples := 16, init_MAX31856 := true, filter_mode := 0, cold_junction_enabled := 0,
    conversion_mode := 1, voltage_mode := false, lastReadTime := 0,
    thermocouple_conversion_count := 3, conversion_time := 0, prev_TC := Temp.val 0 }

/-- Register contents of a device at room temperature: linearized temperature
bytes `0x01, 0x90, 0x00`, cold-junction bytes `0x19, 0x00`, status `0`. -/
def roomRegs : Nat → Nat := fun a =>
  if a = 0x0C then 0x01 else if a = 0x0D then 0x90 else if a = 0x0A then 0x19 else 0

/-- Register contents with linearized temperature bytes `0x19, 0x00, 0x00` and
status `0`. -/
def hotRegs : Nat → Nat := fun a => if a = 0x0C then 0x19 else 0

/-- A driver like `onDemandState` whose construction failed. -/
def uninitState : State := { onDemandState with init_MAX31856 := false }

/-- An initialized driver in continuous mode (one sample, 60Hz, cold junction
enabled) that last passed the fault check at `950000` microseconds and caches
the value 21.5. -/
def pollingState : State :=
  { samples := 1, init_MAX31856 := true, filter_mode := 0, cold_junction_enabled := 1,
    conversion_mode := 1, voltage_mode := false, lastReadTime := 950000,
    thermocouple_conversion_count := 0, conversion_time := 0, prev_TC := Temp.val 21.5 }

/-- Register contents with a nonzero status byte (`0x01`, open circuit). -/
def faultRegs : Nat → Nat := fun a => if a = 0x0F then 0x01 else 0

/-- A port on the stuck-low bus, nothing logged. -/
def stuckLowPort : Port Unit := { dev := (), log := [], console := [] }

/-! ## Register access: proofs -/

theorem registerReadByte_log {β : Type} (spi : Spi β) (p : Port β) (a : Nat) :
    ∃ x r, (registerReadByte spi p a).2.log = p.log ++ readTxn a x r ∧
      (registerReadByte spi p a).1 = r % 256 := by
  refine ⟨(spi.write (spi.ncs p.dev 0) a).1,
    (spi.write (spi.write (spi.ncs p.dev 0) a).2 0).1, ?_, rfl⟩
  simp [registerReadByte, spiEnable, spiDisable, setNcs, spiWrite, readTxn]

theorem registerWriteByte_log {β : Type} (spi : Spi β) (p : Port β) (a v : Nat) :
    ∃ x y, (registerWriteByte spi p a v).2.log = p.log ++ writeTxn a v x y := by
  refine ⟨(spi.write (spi.ncs p.dev 0) a).1,
    (spi.write (spi.write (spi.ncs p.dev 0) a).2 v).1, ?_⟩
  simp [registerWriteByte, spiEnable, spiDisable, setNcs, spiWrite, writeTxn]

/-- C4: `registerReadWriteByte` performs exactly the sequence read(readAddr) = r,
write(writeAddr, w), read(readAddr) = r' on the bus, where
`w = ((r AND clearMask) OR value)` truncated to 8 bits, and returns `true`
exactly when `r' = w`. -/
theorem registerReadWriteByte_sequence {β : Type} (spi : Spi β) (p : Port β)
    (read_address write_address : Nat) (clear_bits : Int) (val : Nat) :
    ∃ x1 r x2 x3 x4 r',
      (registerReadWriteByte spi p read_address write_address clear_bits val).2.log
        = p.log ++ readTxn read_address x1 r
            ++ writeTxn write_address
                ((((r % 256) &&& intBits clear_bits) ||| val) % 256) x2 x3
            ++ readTxn read_address x4 r' ∧
      ((registerReadWriteByte spi p read_address write_address clear_bits val).1 = true
        ↔ r' % 256 = (((r % 256) &&& intBits clear_bits) ||| val) % 256) := by
  obtain ⟨x1, r, h1, e1⟩ := registerReadByte_log spi p read_address
  obtain ⟨x2, x3, h2⟩ := registerWriteByte_log spi (registerReadByte spi p read_address).2
    write_address ((((r % 256) &&& intBits clear_bits) % 256 ||| val) % 256)
  obtain ⟨x4, r', h3, e3⟩ := registerReadByte_log spi
    (registerWriteByte spi (registerReadByte spi p read_address).2
      write_address ((((r % 256) &&& intBits clear_bits) % 256 ||| val) % 256)).2 read_address
  have hm : ((r % 256) &&& intBits clear_bits) % 256 = (r % 256) &&& intBits clear_bits :=
    Nat.mod_eq_of_lt (lt_of_le_of_lt Nat.and_le_left (Nat.mod_lt _ (by norm_num)))
  rw [hm] at h2 h3 e3
  refine ⟨x1, r, x2, x3, x4, r', ?_, ?_⟩
  · simp only [registerReadWriteByte, e1, hm]
    rw [h3, h2, h1]
  · simp only [registerReadWriteByte, e1, hm, e3, decide_eq_true_eq]

theorem registerReadByte_lt {β : Type} (spi : Spi β) (p : Port β) (a : Nat) :
    (registerReadByte spi p a).1 < 256 := by
  simp only [registerReadByte]
  exact Nat.mod_lt _ (by norm_num)

/-! ## The register-file device: proofs -/

theorem regFile_read (p : Port RegFile) (a : Nat) (ha : a < 0x80) :
    (registerReadByte regFileSpi p a).1 = p.dev.regs a % 256 ∧
    (registerReadByte regFileSpi p a).2.dev.regs = p.dev.regs := by
  simp [registerReadByte, spiEnable, spiDisable, setNcs, spiWrite, regFileSpi, ha]

theorem regFile_write (p : Port RegFile) (a v : Nat) :
    (registerWriteByte regFileSpi p (a + 0x80) v).2.dev.regs
      = Function.update p.dev.regs a (v % 256) := by
  simp [registerWriteByte, spiEnable, spiDisable, setNcs, spiWrite, regFileSpi]

/-- The byte `registerReadWriteByte` writes, from the byte it read. -/
theorem mergeByte_testBit (r c v i : Nat) (hi : i < 8) :
    ((((r % 256) &&& c) % 256 ||| v) % 256).testBit i
      = ((r.testBit i && c.testBit i) || v.testBit i) := by
  have h256 : (256 : Nat) = 2 ^ 8 := by norm_num
  simp only [h256, Nat.testBit_mod_two_pow, Nat.testBit_lor, Nat.testBit_land, hi, decide_True,
    Bool.true_and]

theorem regFile_rmw (p : Port RegFile) (a : Nat) (ha : a < 0x80) (c : Int) (v : Nat) :
    (registerReadWriteByte regFileSpi p a (a + 0x80) c v).1 = true ∧
    (registerReadWriteByte regFileSpi p a (a + 0x80) c v).2.dev.regs
      = Function.update p.dev.regs a ((((p.dev.regs a % 256) &&& intBits c) % 256 ||| v) % 256) := by
  obtain ⟨h1, h2⟩ := regFile_read p a ha
  have hw := regFile_write (registerReadByte regFileSpi p a).2 a
    ((((p.dev.regs a % 256) &&& intBits c) % 256 ||| v) % 256)
  obtain ⟨h3, h4⟩ := regFile_read (registerWriteByte regFileSpi (registerReadByte regFileSpi p a).2
    (a + 0x80) ((((p.dev.regs a % 256) &&& intBits c) % 256 ||| v) % 256)).2 a ha
  rw [hw, h2] at h3 h4
  simp only [Function.update_same, Nat.mod_mod] at h3
  constructor
  · simp only [registerReadWriteByte, h1, h3, decide_True]
  · simp only [registerReadWriteByte, h1, h4, Nat.mod_mod]

theorem land_zero_testBit (v c i : Nat) (h : v &&& c = 0) :
    (v.testBit i && c.testBit i) = false := by
  rw [← Nat.testBit_land, h, Nat.zero_testBit]

/-- C5: over the register-file model, `registerReadWriteByte` with a value
inside the cleared field (`value AND clearMask = 0`) returns `true`, leaves the
register equal to its old content on every bit set in the clear mask and equal
to the value on every bit clear in the clear mask, and touches no other
register; a second call whose field is disjoint from the first (every bit the
first mask clears is set in the second mask) verifies as well and leaves the
first field holding the first value while the second field holds the second. -/
theorem registerReadWriteByte_preserves_fields (p : Port RegFile) (a : Nat) (ha : a < 0x80)
    (clear_bits : Int) (val : Nat) (hv : val &&& intBits clear_bits = 0) :
    (registerReadWriteByte regFileSpi p a (a + 0x80) clear_bits val).1 = true ∧
    (∀ i, i < 8 → (intBits clear_bits).testBit i = true →
      ((registerReadWriteByte regFileSpi p a (a + 0x80) clear_bits val).2.dev.regs a).testBit i
        = (p.dev.regs a).testBit i) ∧
    (∀ i, i < 8 → (intBits clear_bits).testBit i = false →
      ((registerReadWriteByte regFileSpi p a (a + 0x80) clear_bits val).2.dev.regs a).testBit i
        = val.testBit i) ∧
    (∀ b, b ≠ a →
      (registerReadWriteByte regFileSpi p a (a + 0x80) clear_bits val).2.dev.regs b
        = p.dev.regs b) ∧
    (∀ (clear2 : Int) (val2 : Nat), val2 &&& intBits clear2 = 0 →
      (∀ i, i < 8 → (intBits clear_bits).testBit i = false →
        (intBits clear2).testBit i = true) →
      (registerReadWriteByte regFileSpi
        (registerReadWriteByte regFileSpi p a (a + 0x80) clear_bits val).2
        a (a + 0x80) clear2 val2).1 = true ∧
      (∀ i, i < 8 → (intBits clear_bits).testBit i = false →
        ((registerReadWriteByte regFileSpi
          (registerReadWriteByte regFileSpi p a (a + 0x80) clear_bits val).2
          a (a + 0x80) clear2 val2).2.dev.regs a).testBit i = val.testBit i) ∧
      (∀ i, i < 8 → (intBits clear2).testBit i = false →
        ((registerReadWriteByte regFileSpi
          (registerReadWriteByte regFileSpi p a (a + 0x80) clear_bits val).2
          a (a + 0x80) clear2 val2).2.dev.regs a).testBit i = val2.testBit i)) := by
  obtain ⟨h1, h2⟩ := regFile_rmw p a ha clear_bits val
  have keep : ∀ (q : Port RegFile) (c : Int) (v : Nat), v &&& intBits c = 0 →
      ∀ i, i < 8 → (intBits c).testBit i = true →
        ((registerReadWriteByte regFileSpi q a (a + 0x80) c v).2.dev.regs a).testBit i
          = (q.dev.regs a).testBit i := by
    intro q c v hvc i hi hc
    have hz := land_zero_testBit v (intBits c) i hvc
    rw [(regFile_rmw q a ha c v).2, Function.update_same, mergeByte_testBit _ _ _ _ hi, hc]
    rw [hc, Bool.and_true] at hz
    rw [hz, Bool.and_true, Bool.or_false]
  have put : ∀ (q : Port RegFile) (c : Int) (v : Nat),
      ∀ i, i < 8 → (intBits c).testBit i = false →
        ((registerReadWriteByte regFileSpi q a (a + 0x80) c v).2.dev.regs a).testBit i
          = v.testBit i := by
    intro q c v i hi hc
    rw [(regFile_rmw q a ha c v).2, Function.update_same, mergeByte_testBit _ _ _ _ hi, hc,
      Bool.and_false, Bool.false_or]
  refine ⟨h1, keep p clear_bits val hv, put p clear_bits val, ?_, ?_⟩
  · intro b hb
    rw [h2, Function.update_noteq hb]
  · intro clear2 val2 hv2 hdisj
    refine ⟨(regFile_rmw _ a ha clear2 val2).1, ?_, put _ clear2 val2⟩
    intro i hi hc
    rw [keep _ clear2 val2 hv2 i hi (hdisj i hi hc)]
    exact put p clear_bits val i hi hc

theorem registerReadWriteByte_preserves_fields_witness :
    (0 : Nat) < 0x80 ∧ 0x08 &&& intBits (-0x09) = 0 ∧
    (registerReadWriteByte regFileSpi (regFilePort (fun _ => 0xA5)) 0 (0 + 0x80)
      (-0x09) 0x08).1 = true ∧
    (∀ i, i < 8 → (intBits (-0x09)).testBit i = true →
      ((registerReadWriteByte regFileSpi (regFilePort (fun _ => 0xA5)) 0 (0 + 0x80)
        (-0x09) 0x08).2.dev.regs 0).testBit i
        = ((regFilePort (fun _ => 0xA5)).dev.regs 0).testBit i) :=
  ⟨by decide, by decide,
    (registerReadWriteByte_preserves_fields (regFilePort (fun _ => 0xA5)) 0 (by decide)
      (-0x09) 0x08 (by decide)).1,
    (registerReadWriteByte_preserves_fields (regFilePort (fun _ => 0xA5)) 0 (by decide)
      (-0x09) 0x08 (by decide)).2.1⟩

/-! ## Decoding: proofs -/

theorem log2Fuel_eq (fuel n : Nat) (h : n ≤ fuel) : log2Fuel fuel n = Nat.log 2 n := by
  induction fuel generalizing n with
  | zero =>
    have : n = 0 := by omega
    subst this
    simp [log2Fuel]
  | succ k ih =>
    unfold log2Fuel
    split_ifs with h2
    · exact (Nat.log_of_lt h2).symm
    · rw [ih (n / 2) (by omega)]
      exact (Nat.log_of_one_lt_of_le (by norm_num) (by omega)).symm

theorem pow2_eq (e : ℤ) : pow2 e = (2 : ℚ) ^ e := by
  unfold pow2
  split_ifs with h
  · obtain ⟨k, rfl⟩ := Int.eq_ofNat_of_zero_le h
    simp
  · obtain ⟨k, hk⟩ : ∃ k : ℕ, e = -(k : ℤ) := ⟨(-e).toNat, by omega⟩
    subst hk
    simp

/-- The exponent `ilog2` computes is the binary exponent of `|x|`. -/
theorem ilog2_spec (x : ℚ) (hx : x ≠ 0) :
    (2 : ℚ) ^ ilog2 x ≤ |x| ∧ |x| < (2 : ℚ) ^ (ilog2 x + 1) := by
  have ha0 : x.num.natAbs ≠ 0 := by
    simpa using hx
  have hd0 : x.den ≠ 0 := x.den_nz
  have habs : |x| = (x.num.natAbs : ℚ) / (x.den : ℚ) := by
    have h1 : ((x.num.natAbs : ℕ) : ℚ) = |(x.num : ℚ)| := by
      rw [Nat.cast_natAbs, Int.cast_abs]
    rw [h1]
    conv_lhs => rw [← Rat.num_div_den x]
    rw [abs_div, abs_of_pos (show (0 : ℚ) < (x.den : ℚ) by exact_mod_cast x.den_pos)]
  have hdpos : (0 : ℚ) < (x.den : ℚ) := by exact_mod_cast x.den_pos
  have la1 : ((2 ^ Nat.log 2 x.num.natAbs : ℕ) : ℚ) ≤ (x.num.natAbs : ℚ) := by
    exact_mod_cast Nat.pow_log_le_self 2 ha0
  have la2 : (x.num.natAbs : ℚ) < ((2 ^ (Nat.log 2 x.num.natAbs + 1) : ℕ) : ℚ) := by
    exact_mod_cast Nat.lt_pow_succ_log_self (by norm_num) _
  have ld1 : ((2 ^ Nat.log 2 x.den : ℕ) : ℚ) ≤ (x.den : ℚ) := by
    exact_mod_cast Nat.pow_log_le_self 2 hd0
  have ld2 : (x.den : ℚ) < ((2 ^ (Nat.log 2 x.den + 1) : ℕ) : ℚ) := by
    exact_mod_cast Nat.lt_pow_succ_log_self (by norm_num) _
  push_cast at la1 la2 ld1 ld2
  have hup : |x| < (2 : ℚ) ^ ((Nat.log 2 x.num.natAbs : ℤ) - (Nat.log 2 x.den : ℤ) + 1) := by
    rw [habs, div_lt_iff₀ hdpos]
    have e : (2 : ℚ) ^ ((Nat.log 2 x.num.natAbs : ℤ) - (Nat.log 2 x.den : ℤ) + 1)
        = 2 ^ (Nat.log 2 x.num.natAbs + 1) / 2 ^ (Nat.log 2 x.den) := by
      rw [show ((Nat.log 2 x.num.natAbs : ℤ) - (Nat.log 2 x.den : ℤ) + 1)
          = ((Nat.log 2 x.num.natAbs + 1 : ℕ) : ℤ) - ((Nat.log 2 x.den : ℕ) : ℤ) by push_cast; ring,
        zpow_sub₀ (by norm_num), zpow_natCast, zpow_natCast]
    rw [e, div_mul_eq_mul_div, lt_div_iff₀ (by positivity)]
    calc (x.num.natAbs : ℚ) * 2 ^ Nat.log 2 x.den
        ≤ (x.num.natAbs : ℚ) * x.den := by gcongr
      _ < 2 ^ (Nat.log 2 x.num.natAbs + 1) * x.den := by gcongr
  have hlo : (2 : ℚ) ^ ((Nat.log 2 x.num.natAbs : ℤ) - (Nat.log 2 x.den : ℤ) - 1) ≤ |x| := by
    rw [habs, le_div_iff₀ hdpos]
    have e : (2 : ℚ) ^ ((Nat.log 2 x.num.natAbs : ℤ) - (Nat.log 2 x.den : ℤ) - 1)
        = 2 ^ (Nat.log 2 x.num.natAbs) / 2 ^ (Nat.log 2 x.den + 1) := by
      rw [show ((Nat.log 2 x.num.natAbs : ℤ) - (Nat.log 2 x.den : ℤ) - 1)
          = ((Nat.log 2 x.num.natAbs : ℕ) : ℤ) - ((Nat.log 2 x.den + 1 : ℕ) : ℤ) by push_cast; ring,
        zpow_sub₀ (by norm_num), zpow_natCast, zpow_natCast]
    rw [e, div_mul_eq_mul_div, div_le_iff₀ (by positivity)]
    calc (2 : ℚ) ^ Nat.log 2 x.num.natAbs * x.den
        ≤ (x.num.natAbs : ℚ) * x.den := by gcongr
      _ ≤ (x.num.natAbs : ℚ) * 2 ^ (Nat.log 2 x.den + 1) := by gcongr
  unfold ilog2
  simp only [log2Fuel_eq _ _ le_rfl, pow2_eq]
  split_ifs with h
  · exact ⟨h, hup⟩
  · refine ⟨hlo, ?_⟩
    rw [sub_add_cancel]
    exact lt_of_not_le h

theorem roundHalfEven_intCast (n : ℤ) : roundHalfEven (n : ℚ) = n := by
  simp [roundHalfEven]

theorem f32_exact (m : ℤ) (k : ℕ) (hm : |m| < 2 ^ 24) :
    f32 ((m : ℚ) / 2 ^ k) = (m : ℚ) / 2 ^ k := by
  by_cases h0 : m = 0
  · simp [f32, h0]
  have hk : (0 : ℚ) < 2 ^ k := by positivity
  have hx : (m : ℚ) / 2 ^ k ≠ 0 := div_ne_zero (by exact_mod_cast h0) hk.ne'
  have habs : (0 : ℚ) < |(m : ℚ) / 2 ^ k| := abs_pos.mpr hx
  have hlt : |(m : ℚ) / 2 ^ k| < (2 : ℚ) ^ ((24 : ℤ) - k) := by
    have h1 : ((|m| : ℤ) : ℚ) < ((2 ^ 24 : ℤ) : ℚ) := by exact_mod_cast hm
    have h2 : (2 : ℚ) ^ ((24 : ℤ) - k) = 2 ^ 24 / 2 ^ k := by
      rw [zpow_sub₀ (by norm_num)]; norm_num
    rw [abs_div, abs_of_pos hk, h2]
    push_cast at h1
    exact div_lt_div_of_pos_right h1 hk
  have he : ilog2 ((m : ℚ) / 2 ^ k) < 24 - k :=
    (zpow_lt_zpow_iff_right₀ (by norm_num : (1 : ℚ) < 2)).mp
      (lt_of_le_of_lt (ilog2_spec _ hx).1 hlt)
  obtain ⟨j, hj⟩ : ∃ j : ℕ, ilog2 ((m : ℚ) / 2 ^ k) - 23 = -((k + j : ℕ) : ℤ) :=
    ⟨(23 - ilog2 ((m : ℚ) / 2 ^ k) - k).toNat, by push_cast; omega⟩
  have hu : (2 : ℚ) ^ (ilog2 ((m : ℚ) / 2 ^ k) - 23) = ((2 : ℚ) ^ (k + j))⁻¹ := by
    rw [hj, zpow_neg, zpow_natCast]
  have hq : (m : ℚ) / 2 ^ k / ((2 : ℚ) ^ (k + j))⁻¹ = ((m * 2 ^ j : ℤ) : ℚ) := by
    push_cast
    field_simp
    ring
  simp only [f32, hx, if_false, pow2_eq, hu, hq, roundHalfEven_intCast]
  push_cast
  field_simp
  ring

theorem and_255 (b : Nat) : b &&& 0xFF = b % 256 :=
  Nat.and_pow_two_sub_one_eq_mod b 8

/-- The 32-bit word built by `readTC`, shifted, is the 24-bit value over 32. -/
theorem word_shift (h m l : Nat) (hh : h < 256) (hm : m < 256) (hl : l < 256) :
    toInt32 (h * 2 ^ 24 + m * 2 ^ 16 + l * 2 ^ 8) >>> (13 : Nat) = signed24 h m l / 32 := by
  rw [Int.shiftRight_eq_div_pow]
  unfold toInt32 signed24
  norm_num
  split_ifs <;> omega

theorem word_shift_bounds (h m l : Nat) (hh : h < 256) (hm : m < 256) (hl : l < 256) :
    -2 ^ 18 ≤ signed24 h m l / 32 ∧ signed24 h m l / 32 < 2 ^ 18 := by
  unfold signed24
  norm_num
  split_ifs <;> omega

theorem decodeTC_eq (h m l : Nat) (hh : h < 256) (hm : m < 256) (hl : l < 256) :
    decodeTC h m l = ((toInt32 (h * 2 ^ 24 + m * 2 ^ 16 + l * 2 ^ 8) >>> (13 : Nat) : Int) : ℚ) * 0.0078125 := by
  have hb := word_shift_bounds h m l hh hm hl
  have hs := word_shift h m l hh hm hl
  unfold decodeTC
  simp only [and_255, Nat.mod_eq_of_lt hh, Nat.mod_eq_of_lt hm, Nat.mod_eq_of_lt hl,
    Nat.shiftLeft_eq]
  norm_num only [] at hs ⊢
  rw [hs]
  have := f32_exact (signed24 h m l / 32) 7 (by rw [abs_lt]; constructor <;> omega)
  have e : ((signed24 h m l / 32 : Int) : ℚ) * (1 / 128) = ((signed24 h m l / 32 : Int) : ℚ) / 2 ^ 7 := by
    norm_num
    ring
  rw [e, this]

theorem decodeCJ_eq (h l : Nat) (hh : h < 256) (hl : l < 256) :
    decodeCJ h l = (signed16 h l : ℚ) / 256 := by
  unfold decodeCJ
  simp only [and_255, Nat.mod_eq_of_lt hh, Nat.mod_eq_of_lt hl, Nat.shiftLeft_eq]
  have e : toInt16 (h * 2 ^ 8 + l) = signed16 h l := by
    unfold toInt16 signed16
    norm_num
    split_ifs <;> omega
  have hb : |signed16 h l| < 2 ^ 24 := by
    unfold signed16
    rw [abs_lt]
    split_ifs <;> constructor <;> omega
  rw [e]
  have := f32_exact (signed16 h l) 8 hb
  norm_num at this ⊢
  exact this

theorem readTC_bytes_lt {β : Type} (H : Header) (spi : Spi β) (p : Port β) :
    (readTC_bytes H spi p).1.1 < 256 ∧ (readTC_bytes H spi p).1.2.1 < 256 ∧
      (readTC_bytes H spi p).1.2.2 < 256 :=
  ⟨registerReadByte_lt _ _ _, registerReadByte_lt _ _ _, registerReadByte_lt _ _ _⟩

theorem readTC_trigger_init {β : Type} (H : Header) (spi : Spi β) (s : State) (p : Port β)
    (hinit : s.init_MAX31856 = true)
    (htrig : s.conversion_mode = 0 →
      (setOneShotMode H spi s p H.CR0_1_SHOT_MODE_ONE_CONVERSION).1 = true) :
    (readTC_trigger H spi s p).1.init_MAX31856 = true := by
  unfold readTC_trigger
  by_cases hm : s.conversion_mode = 0
  · have ht := htrig hm
    simp only [hm, if_true]
    simp only [setOneShotMode] at ht ⊢
    split_ifs at ht ⊢
    simp_all
  · simp only [hm, if_false, hinit]

theorem readTC_trigger_lastReadTime {β : Type} (H : Header) (spi : Spi β) (s : State)
    (p : Port β) : (readTC_trigger H spi s p).1.lastReadTime = s.lastReadTime := by
  unfold readTC_trigger setOneShotMode
  split_ifs <;> rfl

/-- What `readTC` does on the path that reads the temperature registers. -/
theorem readTC_fresh {β : Type} (H : Header) (spi : Spi β) (s : State) (p : Port β) (now : Nat)
    (hinit : (readTC_trigger H spi s p).1.init_MAX31856 = true)
    (hstatus : (registerReadByte spi (readTC_trigger H spi s p).2 H.ADDRESS_SR_READ).1 = 0)
    (hel : elapsed s now > (calculateDelayTime (readTC_trigger H spi s p).1).conversion_time) :
    (readTC H spi s p now).1 = Temp.val (decodeTC
        (readTC_bytes H spi (registerReadByte spi (readTC_trigger H spi s p).2
          H.ADDRESS_SR_READ).2).1.1
        (readTC_bytes H spi (registerReadByte spi (readTC_trigger H spi s p).2
          H.ADDRESS_SR_READ).2).1.2.1
        (readTC_bytes H spi (registerReadByte spi (readTC_trigger H spi s p).2
          H.ADDRESS_SR_READ).2).1.2.2) ∧
    (readTC H spi s p now).2.1.prev_TC = (readTC H spi s p now).1 := by
  have he : elapsed (calculateDelayTime (readTC_trigger H spi s p).1) now = elapsed s now := by
    simp only [elapsed, calculateDelayTime, readTC_trigger_lastReadTime]
  simp only [readTC, hinit, checkFaultsThermocoupleConnection, hstatus, he, hel]
  simp

/-- The value `readTC` returns and caches when it reads the bytes `h`, `m`, `l`. -/
theorem readTC_value {β : Type} (H : Header) (spi : Spi β) (s : State) (p : Port β)
    (now h m l : Nat)
    (hinit : s.init_MAX31856 = true)
    (htrig : s.conversion_mode = 0 →
      (setOneShotMode H spi s p H.CR0_1_SHOT_MODE_ONE_CONVERSION).1 = true)
    (hstatus : (registerReadByte spi (readTC_trigger H spi s p).2 H.ADDRESS_SR_READ).1 = 0)
    (hel : elapsed s now > (calculateDelayTime (readTC_trigger H spi s p).1).conversion_time)
    (hbytes : (readTC_bytes H spi (registerReadByte spi (readTC_trigger H spi s p).2
      H.ADDRESS_SR_READ).2).1 = (h, m, l)) :
    h < 256 ∧ m < 256 ∧ l < 256 ∧
    (readTC H spi s p now).1 = Temp.val
      (((toInt32 (h * 2 ^ 24 + m * 2 ^ 16 + l * 2 ^ 8) >>> (13 : Nat) : Int) : ℚ) * 0.0078125) ∧
    (readTC H spi s p now).2.1.prev_TC = (readTC H spi s p now).1 := by
  obtain ⟨hv, hp⟩ := readTC_fresh H spi s p now (readTC_trigger_init H spi s p hinit htrig)
    hstatus hel
  obtain ⟨b0, b1, b2⟩ := readTC_bytes_lt H spi
    (registerReadByte spi (readTC_trigger H spi s p).2 H.ADDRESS_SR_READ).2
  rw [hbytes] at hv b0 b1 b2
  simp only at hv b0 b1 b2
  rw [decodeTC_eq h m l b0 b1 b2] at hv
  exact ⟨b0, b1, b2, hv, hp⟩

/-- C1 (amended): for an initialized driver whose one-shot trigger, if the mode
is on-demand, verifies, with status byte 0 and elapsed time greater than the
recomputed `conversion_time`, and for the bytes `h`, `m`, `l` read from the
linearized-temperature registers, `readTC` returns `S * 0.0078125`, where `S`
is `h:m:l` placed in the top 24 bits of a 32-bit two's-complement word and
shifted right arithmetically by 13; `S` equals `floor(signed24(h,m,l) / 32)`,
lies in the signed 19-bit range, does not depend on the low 5 bits of `l`, and
the returned value is stored in `prev_TC`. -/
theorem readTC_returns_decoded_value {β : Type} (H : Header) (spi : Spi β) (s : State)
    (p : Port β) (now h m l : Nat)
    (hinit : s.init_MAX31856 = true)
    (htrig : s.conversion_mode = 0 →
      (setOneShotMode H spi s p H.CR0_1_SHOT_MODE_ONE_CONVERSION).1 = true)
    (hstatus : (registerReadByte spi (readTC_trigger H spi s p).2 H.ADDRESS_SR_READ).1 = 0)
    (hel : elapsed s now > (calculateDelayTime (readTC_trigger H spi s p).1).conversion_time)
    (hbytes : (readTC_bytes H spi (registerReadByte spi (readTC_trigger H spi s p).2
      H.ADDRESS_SR_READ).2).1 = (h, m, l)) :
    (readTC H spi s p now).1 = Temp.val
      (((toInt32 (h * 2 ^ 24 + m * 2 ^ 16 + l * 2 ^ 8) >>> (13 : Nat) : Int) : ℚ) * 0.0078125) ∧
    (readTC H spi s p now).2.1.prev_TC = Temp.val
      (((toInt32 (h * 2 ^ 24 + m * 2 ^ 16 + l * 2 ^ 8) >>> (13 : Nat) : Int) : ℚ) * 0.0078125) ∧
    toInt32 (h * 2 ^ 24 + m * 2 ^ 16 + l * 2 ^ 8) >>> (13 : Nat)
      = ⌊(signed24 h m l : ℚ) / 32⌋ ∧
    -2 ^ 18 ≤ toInt32 (h * 2 ^ 24 + m * 2 ^ 16 + l * 2 ^ 8) >>> (13 : Nat) ∧
    toInt32 (h * 2 ^ 24 + m * 2 ^ 16 + l * 2 ^ 8) >>> (13 : Nat) < 2 ^ 18 ∧
    ∀ l', l' < 256 → l' / 32 = l / 32 →
      toInt32 (h * 2 ^ 24 + m * 2 ^ 16 + l' * 2 ^ 8) >>> (13 : Nat)
        = toInt32 (h * 2 ^ 24 + m * 2 ^ 16 + l * 2 ^ 8) >>> (13 : Nat) := by
  obtain ⟨b0, b1, b2, hv, hp⟩ := readTC_value H spi s p now h m l hinit htrig hstatus hel hbytes
  have hs := word_shift h m l b0 b1 b2
  have hb := word_shift_bounds h m l b0 b1 b2
  have hfl : ⌊(signed24 h m l : ℚ) / 32⌋ = signed24 h m l / 32 := by
    have := Rat.floor_intCast_div_natCast (signed24 h m l) 32
    norm_num at this
    exact this
  refine ⟨hv, hp.trans hv, hs.trans hfl.symm, ?_, ?_, ?_⟩
  · rw [hs]; exact hb.1
  · rw [hs]; exact hb.2
  · intro l' hl' hdiv
    rw [hs, word_shift h m l' b0 b1 hl']
    unfold signed24
    split_ifs <;> omega

/-- C1 (as stated, refuted): an initialized driver in on-demand mode on a bus
whose data line is stuck low.  The status byte reads `0`, the elapsed time
exceeds the recomputed delay and the temperature registers read `0, 0, 0`, yet
`readTC` returns `NAN` instead of the decoded `0 * 0.0078125`, because the
one-shot trigger's read-back (`0`) differs from the byte written (`0x40`). -/
theorem readTC_initialized_returns_nan :
    onDemandState.init_MAX31856 = true ∧
    (registerReadByte stuckLowSpi (readTC_trigger datasheet stuckLowSpi onDemandState
      stuckLowPort).2 datasheet.ADDRESS_SR_READ).1 = 0 ∧
    elapsed onDemandState 1 > (calculateDelayTime (readTC_trigger datasheet stuckLowSpi
      onDemandState stuckLowPort).1).conversion_time ∧
    (readTC_bytes datasheet stuckLowSpi (registerReadByte stuckLowSpi
      (readTC_trigger datasheet stuckLowSpi onDemandState stuckLowPort).2
      datasheet.ADDRESS_SR_READ).2).1 = (0, 0, 0) ∧
    (readTC datasheet stuckLowSpi onDemandState stuckLowPort 1).1 = Temp.nan ∧
    (readTC datasheet stuckLowSpi onDemandState stuckLowPort 1).1 ≠ Temp.val
      (((toInt32 (0 * 2 ^ 24 + 0 * 2 ^ 16 + 0 * 2 ^ 8) >>> (13 : Nat) : Int) : ℚ) * 0.0078125) := by
  refine ⟨by decide, by decide, by decide!, by decide, by decide, ?_⟩
  have h : (readTC datasheet stuckLowSpi onDemandState stuckLowPort 1).1 = Temp.nan := by decide
  rw [h]
  exact fun e => Temp.noConfusion e

theorem readTC_returns_decoded_value_witness :
    onDemandState.init_MAX31856 = true ∧
    (setOneShotMode datasheet regFileSpi onDemandState (regFilePort roomRegs)
      datasheet.CR0_1_SHOT_MODE_ONE_CONVERSION).1 = true ∧
    (registerReadByte regFileSpi (readTC_trigger datasheet regFileSpi onDemandState
      (regFilePort roomRegs)).2 datasheet.ADDRESS_SR_READ).1 = 0 ∧
    elapsed onDemandState 1 > (calculateDelayTime (readTC_trigger datasheet regFileSpi
      onDemandState (regFilePort roomRegs)).1).conversion_time ∧
    (readTC datasheet regFileSpi onDemandState (regFilePort roomRegs) 1).1 = Temp.val
      (((toInt32 (0x01 * 2 ^ 24 + 0x90 * 2 ^ 16 + 0x00 * 2 ^ 8) >>> (13 : Nat) : Int) : ℚ)
        * 0.0078125) ∧
    Temp.val (((toInt32 (0x01 * 2 ^ 24 + 0x90 * 2 ^ 16 + 0x00 * 2 ^ 8) >>> (13 : Nat) : Int) : ℚ)
        * 0.0078125) = Temp.val 25 :=
  ⟨by decide, by decide, by decide, by decide!,
    (readTC_returns_decoded_value datasheet regFileSpi onDemandState (regFilePort roomRegs) 1
      0x01 0x90 0x00 (by decide) (fun _ => by decide) (by decide) (by decide!) (by decide)).1,
    by decide!⟩

/-- C2 (amended): for an initialized driver whose one-shot trigger, if any,
verifies, with status byte 0 and elapsed time greater than the delay, raw bytes
`0x19, 0x00, 0x00` read from the thermocouple high, mid and low registers make
`readTC` return 400.0 degrees. -/
theorem readTC_bytes_19_00_00 {β : Type} (H : Header) (spi : Spi β) (s : State) (p : Port β)
    (now : Nat)
    (hinit : s.init_MAX31856 = true)
    (htrig : s.conversion_mode = 0 →
      (setOneShotMode H spi s p H.CR0_1_SHOT_MODE_ONE_CONVERSION).1 = true)
    (hstatus : (registerReadByte spi (readTC_trigger H spi s p).2 H.ADDRESS_SR_READ).1 = 0)
    (hel : elapsed s now > (calculateDelayTime (readTC_trigger H spi s p).1).conversion_time)
    (hbytes : (readTC_bytes H spi (registerReadByte spi (readTC_trigger H spi s p).2
      H.ADDRESS_SR_READ).2).1 = (0x19, 0x00, 0x00)) :
    (readTC H spi s p now).1 = Temp.val 400 := by
  obtain ⟨-, -, -, hv, -⟩ :=
    readTC_value H spi s p now 0x19 0x00 0x00 hinit htrig hstatus hel hbytes
  rw [hv]
  decide!

theorem readTC_bytes_19_00_00_witness :
    continuousState.init_MAX31856 = true ∧
    (registerReadByte regFileSpi (readTC_trigger datasheet regFileSpi continuousState
      (regFilePort hotRegs)).2 datasheet.ADDRESS_SR_READ).1 = 0 ∧
    elapsed continuousState 1 > (calculateDelayTime (readTC_trigger datasheet regFileSpi
      continuousState (regFilePort hotRegs)).1).conversion_time ∧
    (readTC_bytes datasheet regFileSpi (registerReadByte regFileSpi
      (readTC_trigger datasheet regFileSpi continuousState (regFilePort hotRegs)).2
      datasheet.ADDRESS_SR_READ).2).1 = (0x19, 0x00, 0x00) ∧
    (readTC datasheet regFileSpi continuousState (regFilePort hotRegs) 1).1 = Temp.val 400 :=
  ⟨by decide, by decide, by decide!, by decide,
    readTC_bytes_19_00_00 datasheet regFileSpi continuousState (regFilePort hotRegs) 1
      (by decide) (fun h => absurd h (by decide)) (by decide) (by decide!) (by decide)⟩

/-- C2 (as stated, refuted): an initialized driver in continuous mode on a
register file whose status register holds `0` and whose thermocouple registers
hold `0x19, 0x00, 0x00`, read after more than the delay: `readTC` returns 400,
not 25. -/
theorem readTC_bytes_19_00_00_not_25 :
    continuousState.init_MAX31856 = true ∧
    (registerReadByte regFileSpi (readTC_trigger datasheet regFileSpi continuousState
      (regFilePort hotRegs)).2 datasheet.ADDRESS_SR_READ).1 = 0 ∧
    elapsed continuousState 1 > (calculateDelayTime (readTC_trigger datasheet regFileSpi
      continuousState (regFilePort hotRegs)).1).conversion_time ∧
    (readTC_bytes datasheet regFileSpi (registerReadByte regFileSpi
      (readTC_trigger datasheet regFileSpi continuousState (regFilePort hotRegs)).2
      datasheet.ADDRESS_SR_READ).2).1 = (0x19, 0x00, 0x00) ∧
    (readTC datasheet regFileSpi continuousState (regFilePort hotRegs) 1).1 ≠ Temp.val 25 := by
  refine ⟨by decide, by decide, by decide!, by decide, ?_⟩
  have h : (readTC datasheet regFileSpi continuousState (regFilePort hotRegs) 1).1
      = Temp.val 400 := by decide!
  rw [h]
  decide

/-- C3: on an initialized driver `readCJ` issues exactly two register reads, of
the cold-junction high and low registers in this order (no status read),
leaves the driver state as it was and prints nothing, and returns `V / 256`
where `V` is the two bytes read as a signed 16-bit big-endian integer; the
result and the bus traffic are the same from every initialized driver state
(no caching, no dependence on time stamps); bytes `0x19`, `0x00` give exactly
25. -/
theorem readCJ_two_reads_decoded {β : Type} (H : Header) (spi : Spi β) (s : State)
    (p : Port β) (hinit : s.init_MAX31856 = true) :
    ∃ x0 r0 x1 r1,
      (readCJ H spi s p).2.2.log
        = p.log ++ readTxn H.ADDRESS_CJTH_READ x0 r0 ++ readTxn H.ADDRESS_CJTL_READ x1 r1 ∧
      (readCJ H spi s p).1 = Temp.val ((signed16 (r0 % 256) (r1 % 256) : ℚ) / 256) ∧
      (readCJ H spi s p).2.1 = s ∧
      (readCJ H spi s p).2.2.console = p.console ∧
      (∀ s' : State, s'.init_MAX31856 = true →
        (readCJ H spi s' p).1 = (readCJ H spi s p).1 ∧
        (readCJ H spi s' p).2.2.log = (readCJ H spi s p).2.2.log) ∧
      (r0 % 256 = 0x19 → r1 % 256 = 0x00 → (readCJ H spi s p).1 = Temp.val 25) := by
  obtain ⟨x0, r0, hl0, hb0⟩ := registerReadByte_log spi p H.ADDRESS_CJTH_READ
  obtain ⟨x1, r1, hl1, hb1⟩ := registerReadByte_log spi
    (registerReadByte spi p H.ADDRESS_CJTH_READ).2 H.ADDRESS_CJTL_READ
  have hval : (readCJ H spi s p).1 = Temp.val ((signed16 (r0 % 256) (r1 % 256) : ℚ) / 256) := by
    simp only [readCJ, hinit, hb0, hb1]
    simp only [Bool.true_eq_false, if_false]
    rw [decodeCJ_eq _ _ (Nat.mod_lt _ (by norm_num)) (Nat.mod_lt _ (by norm_num))]
  refine ⟨x0, r0, x1, r1, ?_, hval, ?_, ?_, ?_, ?_⟩
  · simp only [readCJ, hinit, Bool.true_eq_false, if_false]
    rw [hl1, hl0]
  · simp only [readCJ, hinit, Bool.true_eq_false, if_false]
  · simp [readCJ, hinit, registerReadByte, spiEnable, spiDisable, setNcs, spiWrite]
  · intro s' hs'
    simp only [readCJ, hinit, hs', Bool.true_eq_false, if_false, and_self]
  · intro h0 h1
    rw [hval, h0, h1]
    norm_num [signed16]

theorem readCJ_two_reads_decoded_witness :
    onDemandState.init_MAX31856 = true ∧
    ∃ x0 r0 x1 r1,
      (readCJ datasheet regFileSpi onDemandState (regFilePort roomRegs)).2.2.log
        = (regFilePort roomRegs).log ++ readTxn datasheet.ADDRESS_CJTH_READ x0 r0
            ++ readTxn datasheet.ADDRESS_CJTL_READ x1 r1 ∧
      (readCJ datasheet regFileSpi onDemandState (regFilePort roomRegs)).1
        = Temp.val ((signed16 (r0 % 256) (r1 % 256) : ℚ) / 256) ∧
      (readCJ datasheet regFileSpi onDemandState (regFilePort roomRegs)).2.1 = onDemandState ∧
      (readCJ datasheet regFileSpi onDemandState (regFilePort roomRegs)).2.2.console
        = (regFilePort roomRegs).console ∧
      (∀ s' : State, s'.init_MAX31856 = true →
        (readCJ datasheet regFileSpi s' (regFilePort roomRegs)).1
          = (readCJ datasheet regFileSpi onDemandState (regFilePort roomRegs)).1 ∧
        (readCJ datasheet regFileSpi s' (regFilePort roomRegs)).2.2.log
          = (readCJ datasheet regFileSpi onDemandState (regFilePort roomRegs)).2.2.log) ∧
      (r0 % 256 = 0x19 → r1 % 256 = 0x00 →
        (readCJ datasheet regFileSpi onDemandState (regFilePort roomRegs)).1 = Temp.val 25) :=
  ⟨by decide, readCJ_two_reads_decoded datasheet regFileSpi onDemandState (regFilePort roomRegs)
    (by decide)⟩

/-! ## Setters: proofs -/

/-- C6: each of the nine enumeration setters, given a byte that is none of its
whitelisted constants, returns `false` and leaves both the driver state and
the port (bus log included: no bus transaction) exactly as they were. -/
theorem setters_reject_unlisted_value {β : Type} (H : Header) (spi : Spi β) (s : State)
    (p : Port β) (val : Nat) :
    (val ≠ H.CR0_CONV_MODE_NORMALLY_OFF ∧ val ≠ H.CR0_CONV_MODE_NORMALLY_ON →
      setConversionMode H spi s p val = (false, s, p)) ∧
    (val ≠ H.CR0_1_SHOT_MODE_NO_CONVERSION ∧ val ≠ H.CR0_1_SHOT_MODE_ONE_CONVERSION →
      setOneShotMode H spi s p val = (false, s, p)) ∧
    (val ≠ H.CR0_OC_DETECT_DISABLED ∧ val ≠ H.CR0_OC_DETECT_ENABLED_R_LESS_5k ∧
        val ≠ H.CR0_OC_DETECT_ENABLED_TC_LESS_2ms ∧
        val ≠ H.CR0_OC_DETECT_ENABLED_TC_MORE_2ms →
      setOpenCircuitFaultDetection H spi s p val = (false, s, p)) ∧
    (val ≠ H.CR0_COLD_JUNC_ENABLE ∧ val ≠ H.CR0_COLD_JUNC_DISABLE →
      setColdJunctionDisable H spi s p val = (false, s, p)) ∧
    (val ≠ H.CR0_FAULT_MODE_COMPARATOR ∧ val ≠ H.CR0_FAULT_MODE_INTERUPT →
      setFaultMode H spi s p val = (false, s, p)) ∧
    (val ≠ H.CR0_FAULTCLR_DEFAULT_VAL ∧ val ≠ H.CR0_FAULTCLR_RETURN_FAULTS_TO_ZERO →
      setFaultStatusClear H spi s p val = (false, s, p)) ∧
    (val ≠ H.CR0_FILTER_OUT_60Hz ∧ val ≠ H.CR0_FILTER_OUT_50Hz →
      setEmiFilterFreq H spi s p val = (false, s, p)) ∧
    (val ≠ H.CR1_AVG_TC_SAMPLES_1 ∧ val ≠ H.CR1_AVG_TC_SAMPLES_2 ∧
        val ≠ H.CR1_AVG_TC_SAMPLES_4 ∧ val ≠ H.CR1_AVG_TC_SAMPLES_8 ∧
        val ≠ H.CR1_AVG_TC_SAMPLES_16 →
      setNumSamplesAvg H spi s p val = (false, s, p)) ∧
    (val ≠ H.CR1_TC_TYPE_B ∧ val ≠ H.CR1_TC_TYPE_E ∧ val ≠ H.CR1_TC_TYPE_J ∧
        val ≠ H.CR1_TC_TYPE_K ∧ val ≠ H.CR1_TC_TYPE_N ∧ val ≠ H.CR1_TC_TYPE_R ∧
        val ≠ H.CR1_TC_TYPE_S ∧ val ≠ H.CR1_TC_TYPE_T ∧
        val ≠ H.CR1_TC_TYPE_VOLT_MODE_GAIN_8 ∧ val ≠ H.CR1_TC_TYPE_VOLT_MODE_GAIN_32 →
      setThermocoupleType H spi s p val = (false, s, p)) := by
  refine ⟨?_, ?_, ?_, ?_, ?_, ?_, ?_, ?_, ?_⟩
  · intro h; simp [setConversionMode, h]
  · intro h; simp [setOneShotMode, h]
  · intro h; simp [setOpenCircuitFaultDetection, h]
  · intro h; simp [setColdJunctionDisable, h]
  · intro h; simp [setFaultMode, h]
  · intro h; simp [setFaultStatusClear, h]
  · intro h; simp [setEmiFilterFreq, h]
  · intro h; simp [setNumSamplesAvg, h]
  · intro h; simp [setThermocoupleType, h]

/-- C7 (the code at the failing input): when the six fault-source selectors are
nonzero, `setFaultMasks` called with `enable = true` returns `false` for every
`val`, the six selectors included, and issues no bus transaction: `val` is
zeroed before the `switch`, so no case matches. -/
theorem setFaultMasks_enable_rejected {β : Type} (H : Header) (spi : Spi β) (s : State)
    (p : Port β) (val : Nat)
    (h5 : H.MASK_CJ_FAULT_THRESHOLD_HIGH ≠ 0) (h4 : H.MASK_CJ_FAULT_THRESHOLD_LOW ≠ 0)
    (h3 : H.MASK_TC_FAULT_THRESHOLD_HIGH ≠ 0) (h2 : H.MASK_TC_FAULT_THRESHOLD_LOW ≠ 0)
    (h1 : H.MASK_OVER_UNDER_VOLT_FAULT ≠ 0) (h0 : H.MASK_OPEN_CIRCUIT_FAULT ≠ 0) :
    setFaultMasks H spi s p val true = (false, s, p) := by
  simp [setFaultMasks, h5.symm, h4.symm, h3.symm, h2.symm, h1.symm, h0.symm]

theorem setFaultMasks_enable_rejected_witness :
    (setFaultMasks datasheet regFileSpi
      { samples := 1, init_MAX31856 := true, filter_mode := 0, cold_junction_enabled := 1,
        conversion_mode := 0, voltage_mode := false, lastReadTime := 0,
        thermocouple_conversion_count := 0, conversion_time := 0, prev_TC := Temp.nan }
      (regFilePort (fun _ => 0xFF)) datasheet.MASK_OPEN_CIRCUIT_FAULT true).1 = false ∧
    (setFaultMasks datasheet regFileSpi
      { samples := 1, init_MAX31856 := true, filter_mode := 0, cold_junction_enabled := 1,
        conversion_mode := 0, voltage_mode := false, lastReadTime := 0,
        thermocouple_conversion_count := 0, conversion_time := 0, prev_TC := Temp.nan }
      (regFilePort (fun _ => 0xFF)) datasheet.MASK_OPEN_CIRCUIT_FAULT true).2.2.log = [] := by
  rw [setFaultMasks_enable_rejected datasheet regFileSpi _ _ _ (by decide) (by decide)
    (by decide) (by decide) (by decide) (by decide)]
  exact ⟨rfl, rfl⟩

theorem setters_reject_unlisted_value_witness :
    setConversionMode datasheet regFileSpi onDemandState (regFilePort roomRegs) 0x55
      = (false, onDemandState, regFilePort roomRegs) ∧
    setNumSamplesAvg datasheet regFileSpi onDemandState (regFilePort roomRegs) 0x55
      = (false, onDemandState, regFilePort roomRegs) :=
  ⟨(setters_reject_unlisted_value datasheet regFileSpi onDemandState (regFilePort roomRegs)
      0x55).1 (by decide),
    (setters_reject_unlisted_value datasheet regFileSpi onDemandState (regFilePort roomRegs)
      0x55).2.2.2.2.2.2.2.1 (by decide)⟩

/-- With `enable = false` and the selectors of the worked header, `setFaultMasks`
is one `registerReadWriteByte` on the mask register with the clear mask of the
selected source and the selector as value. -/
theorem setFaultMasks_disable {β : Type} (spi : Spi β) (s : State) (p : Port β) :
    setFaultMasks datasheet spi s p 0x20 false
      = ((registerReadWriteByte spi p 0x02 0x82 (-0x21) 0x20).1, s,
          (registerReadWriteByte spi p 0x02 0x82 (-0x21) 0x20).2) ∧
    setFaultMasks datasheet spi s p 0x10 false
      = ((registerReadWriteByte spi p 0x02 0x82 (-0x11) 0x10).1, s,
          (registerReadWriteByte spi p 0x02 0x82 (-0x11) 0x10).2) ∧
    setFaultMasks datasheet spi s p 0x08 false
      = ((registerReadWriteByte spi p 0x02 0x82 (-0x09) 0x08).1, s,
          (registerReadWriteByte spi p 0x02 0x82 (-0x09) 0x08).2) ∧
    setFaultMasks datasheet spi s p 0x04 false
      = ((registerReadWriteByte spi p 0x02 0x82 (-0x05) 0x04).1, s,
          (registerReadWriteByte spi p 0x02 0x82 (-0x05) 0x04).2) ∧
    setFaultMasks datasheet spi s p 0x02 false
      = ((registerReadWriteByte spi p 0x02 0x82 (-0x03) 0x02).1, s,
          (registerReadWriteByte spi p 0x02 0x82 (-0x03) 0x02).2) ∧
    setFaultMasks datasheet spi s p 0x01 false
      = ((registerReadWriteByte spi p 0x02 0x82 (-0x02) 0x01).1, s,
          (registerReadWriteByte spi p 0x02 0x82 (-0x02) 0x01).2) :=
  ⟨rfl, rfl, rfl, rfl, rfl, rfl⟩

/-! ## Conversion delay: proofs -/

theorem units60 (n : Nat) (hn : n = 1 ∨ n = 2 ∨ n = 4 ∨ n = 8 ∨ n = 16) :
    toU32 (f32 (82 + f32 (f32 ((n : ℚ) - 1) * f32 (3333 / 100)))) = 82 + 3333 * (n - 1) / 100 := by
  rcases hn with h | h | h | h | h <;> subst h <;> decide!

theorem units60fast (n : Nat) (hn : n = 1 ∨ n = 2 ∨ n = 4 ∨ n = 8 ∨ n = 16) :
    toU32 (f32 (82 + f32 (f32 ((n : ℚ) - 1) * f32 (1667 / 100)))) = 82 + 1667 * (n - 1) / 100 := by
  rcases hn with h | h | h | h | h <;> subst h <;> decide!

theorem units50 (n : Nat) (hn : n = 1 ∨ n = 2 ∨ n = 4 ∨ n = 8 ∨ n = 16) :
    toU32 (f32 (98 + f32 (f32 ((n : ℚ) - 1) * f32 40))) = 98 + 40 * (n - 1) := by
  rcases hn with h | h | h | h | h <;> subst h <;> decide!

theorem units50fast (n : Nat) (hn : n = 1 ∨ n = 2 ∨ n = 4 ∨ n = 8 ∨ n = 16) :
    toU32 (f32 (98 + f32 (f32 ((n : ℚ) - 1) * f32 20))) = 98 + 20 * (n - 1) := by
  rcases hn with h | h | h | h | h <;> subst h <;> decide!

/-- The truncated delay does not depend on whether the compiler contracts the
multiplication and the addition into one fused operation (a single rounding):
for the five sample counts the contracted expressions truncate to the same
integers. -/
theorem units_contracted (n : Nat) (hn : n = 1 ∨ n = 2 ∨ n = 4 ∨ n = 8 ∨ n = 16) :
    toU32 (f32 (82 + f32 ((n : ℚ) - 1) * f32 (3333 / 100))) = 82 + 3333 * (n - 1) / 100 ∧
    toU32 (f32 (82 + f32 ((n : ℚ) - 1) * f32 (1667 / 100))) = 82 + 1667 * (n - 1) / 100 ∧
    toU32 (f32 (98 + f32 ((n : ℚ) - 1) * f32 40)) = 98 + 40 * (n - 1) ∧
    toU32 (f32 (98 + f32 ((n : ℚ) - 1) * f32 20)) = 98 + 20 * (n - 1) := by
  rcases hn with h | h | h | h | h <;> subst h <;> decide!

/-- Closed form of `delayUnits` in integer arithmetic for the five sample counts. -/
theorem delayUnits_eq (s : State)
    (hn : s.samples = 1 ∨ s.samples = 2 ∨ s.samples = 4 ∨ s.samples = 8 ∨ s.samples = 16) :
    delayUnits s =
      if s.conversion_mode = 0 ∨ s.thermocouple_conversion_count = 0 then
        (if s.filter_mode = 0 then 82 + 3333 * (s.samples - 1) / 100
         else 98 + 40 * (s.samples - 1))
      else
        (if s.filter_mode = 0 then 82 + 1667 * (s.samples - 1) / 100
         else 98 + 20 * (s.samples - 1)) := by
  unfold delayUnits
  rw [units60 _ hn, units60fast _ hn, units50 _ hn, units50fast _ hn]

theorem conversion_time_eq (s : State)
    (hn : s.samples = 1 ∨ s.samples = 2 ∨ s.samples = 4 ∨ s.samples = 8 ∨ s.samples = 16) :
    (calculateDelayTime s).conversion_time
      = 1000 * (delayUnits s - if s.cold_junction_enabled = 0 then 25 else 0) ∧
    82 ≤ delayUnits s ∧ delayUnits s ≤ 698 := by
  have hu := delayUnits_eq s hn
  have hb : 82 ≤ delayUnits s ∧ delayUnits s ≤ 698 := by
    rw [hu]
    rcases hn with h | h | h | h | h <;> rw [h] <;> split_ifs <;> simp
  refine ⟨?_, hb⟩
  simp only [calculateDelayTime]
  split_ifs <;> omega

theorem delayTrunc_eq (s : State)
    (hn : s.samples = 1 ∨ s.samples = 2 ∨ s.samples = 4 ∨ s.samples = 8 ∨ s.samples = 16) :
    delayTrunc (decide (s.filter_mode ≠ 0))
      (decide (s.conversion_mode ≠ 0 ∧ s.thermocouple_conversion_count ≠ 0)) s.samples
      = (delayUnits s : ℤ) := by
  rw [delayUnits_eq s hn]
  by_cases hf : s.filter_mode = 0 <;> by_cases hm : s.conversion_mode = 0 <;>
    by_cases hc : s.thermocouple_conversion_count = 0 <;>
    simp only [hf, hm, hc, ne_eq, not_true_eq_false, not_false_eq_true, decide_True, decide_False,
      and_self, and_false, false_and, or_self, or_true, true_or, or_false, if_true, if_false] <;>
    rcases hn with h | h | h | h | h <;> rw [h] <;> decide!

/-- C8: for a sample count in {1,2,4,8,16}, `calculateDelayTime` sets
`conversion_time` to `1000 * (trunc(base + (n - 1) * per) - c)` of the
specification: 60Hz is `filter_mode == 0`, the halved per-sample terms apply
when `conversion_mode != 0` and `thermocouple_conversion_count != 0`, and
`c = 25` when `cold_junction_enabled == 0`; the subtraction does not underflow
(`c` is at most the truncated value, which is itself at least 82). -/
theorem calculateDelayTime_formula (s : State)
    (hn : s.samples = 1 ∨ s.samples = 2 ∨ s.samples = 4 ∨ s.samples = 8 ∨ s.samples = 16) :
    ((calculateDelayTime s).conversion_time : ℤ)
      = delayFormula (decide (s.filter_mode ≠ 0))
          (decide (s.conversion_mode ≠ 0 ∧ s.thermocouple_conversion_count ≠ 0))
          (decide (s.cold_junction_enabled = 0)) s.samples ∧
    82 ≤ delayTrunc (decide (s.filter_mode ≠ 0))
          (decide (s.conversion_mode ≠ 0 ∧ s.thermocouple_conversion_count ≠ 0)) s.samples ∧
    (if s.cold_junction_enabled = 0 then (25 : ℤ) else 0)
      ≤ delayTrunc (decide (s.filter_mode ≠ 0))
          (decide (s.conversion_mode ≠ 0 ∧ s.thermocouple_conversion_count ≠ 0)) s.samples := by
  obtain ⟨hc, hlo, -⟩ := conversion_time_eq s hn
  have ht := delayTrunc_eq s hn
  unfold delayFormula
  rw [ht, hc]
  by_cases hcj : s.cold_junction_enabled = 0
  · simp only [hcj, if_true, decide_True]
    refine ⟨?_, ?_, ?_⟩ <;> omega
  · simp only [hcj, if_false, decide_False, Bool.false_eq_true]
    refine ⟨?_, ?_, ?_⟩ <;> omega

theorem calculateDelayTime_formula_witness :
    ((calculateDelayTime continuousState).conversion_time : ℤ) = delayFormula false true true 16 ∧
    delayFormula false true true 16 = 307000 :=
  ⟨(calculateDelayTime_formula continuousState (by decide)).1, by decide!⟩

/-- C9: with filter mode, cold-junction setting, conversion mode and read count
fixed, the `conversion_time` set by `calculateDelayTime` is non-decreasing in
the sample count over {1,2,4,8,16}. -/
theorem calculateDelayTime_mono_samples (s : State) (n1 n2 : Nat)
    (h1 : n1 = 1 ∨ n1 = 2 ∨ n1 = 4 ∨ n1 = 8 ∨ n1 = 16)
    (h2 : n2 = 1 ∨ n2 = 2 ∨ n2 = 4 ∨ n2 = 8 ∨ n2 = 16) (hle : n1 ≤ n2) :
    (calculateDelayTime { s with samples := n1 }).conversion_time
      ≤ (calculateDelayTime { s with samples := n2 }).conversion_time := by
  obtain ⟨e1, -, -⟩ := conversion_time_eq { s with samples := n1 } h1
  obtain ⟨e2, -, -⟩ := conversion_time_eq { s with samples := n2 } h2
  rw [e1, e2, delayUnits_eq _ h1, delayUnits_eq _ h2]
  simp only
  rcases h1 with h | h | h | h | h <;> rcases h2 with h' | h' | h' | h' | h' <;>
    subst h <;> subst h' <;> split_ifs <;> omega

theorem calculateDelayTime_mono_samples_witness :
    (calculateDelayTime { continuousState with samples := 2 }).conversion_time
      ≤ (calculateDelayTime { continuousState with samples := 8 }).conversion_time :=
  calculateDelayTime_mono_samples continuousState 2 8 (by decide) (by decide) (by decide)

/-- C10: for every sample count in {1,2,4,8,16} and fixed cold-junction setting,
conversion mode and read count, the `conversion_time` set by
`calculateDelayTime` with the 60Hz filter (`filter_mode == 0`) is strictly
smaller than with the 50Hz filter (any other `filter_mode`). -/
theorem calculateDelayTime_60Hz_lt_50Hz (s : State) (f50 : Nat) (hf : f50 ≠ 0)
    (hn : s.samples = 1 ∨ s.samples = 2 ∨ s.samples = 4 ∨ s.samples = 8 ∨ s.samples = 16) :
    (calculateDelayTime { s with filter_mode := 0 }).conversion_time
      < (calculateDelayTime { s with filter_mode := f50 }).conversion_time := by
  obtain ⟨e1, -, -⟩ := conversion_time_eq { s with filter_mode := 0 } hn
  obtain ⟨e2, -, -⟩ := conversion_time_eq { s with filter_mode := f50 } hn
  rw [e1, e2, delayUnits_eq { s with filter_mode := 0 } hn,
    delayUnits_eq { s with filter_mode := f50 } hn]
  simp only [hf, if_true, if_false]
  rcases hn with h | h | h | h | h <;> rw [h] <;> split_ifs <;> omega

theorem calculateDelayTime_60Hz_lt_50Hz_witness :
    (calculateDelayTime { continuousState with filter_mode := 0 }).conversion_time
      < (calculateDelayTime { continuousState with filter_mode := 1 }).conversion_time :=
  calculateDelayTime_60Hz_lt_50Hz continuousState 1 (by decide) (by decide)

/-! ## Fault interpretation: proofs -/

theorem tc_bits : ∀ b, b < 256 →
    ((b &&& 0x4C = 0) ↔ (b &&& 0x40 = 0 ∧ b &&& 0x08 = 0 ∧ b &&& 0x04 = 0)) := by
  decide!

theorem cj_bits : ∀ b, b < 256 →
    ((b &&& 0xB0 = 0) ↔ (b &&& 0x80 = 0 ∧ b &&& 0x20 = 0 ∧ b &&& 0x10 = 0)) := by
  decide!

/-- The code `checkFaultsThermocoupleThresholds` returns, from the byte it read. -/
theorem tcThresholds_code {β : Type} (H : Header) (spi : Spi β) (p : Port β) :
    (checkFaultsThermocoupleThresholds H spi p).1
      = some (severity (decide ((registerReadByte spi p H.ADDRESS_SR_READ).1 &&& 0x40 ≠ 0))
          (decide ((registerReadByte spi p H.ADDRESS_SR_READ).1 &&& 0x08 ≠ 0))
          (decide ((registerReadByte spi p H.ADDRESS_SR_READ).1 &&& 0x04 ≠ 0))) := by
  have hb := tc_bits _ (registerReadByte_lt spi p H.ADDRESS_SR_READ)
  unfold checkFaultsThermocoupleThresholds
  simp only []
  split_ifs <;> simp_all [severity]

theorem cjThresholds_code {β : Type} (H : Header) (spi : Spi β) (p : Port β) :
    (checkFaultsColdJunctionThresholds H spi p).1
      = some (severity (decide ((registerReadByte spi p H.ADDRESS_SR_READ).1 &&& 0x80 ≠ 0))
          (decide ((registerReadByte spi p H.ADDRESS_SR_READ).1 &&& 0x20 ≠ 0))
          (decide ((registerReadByte spi p H.ADDRESS_SR_READ).1 &&& 0x10 ≠ 0))) := by
  have hb := cj_bits _ (registerReadByte_lt spi p H.ADDRESS_SR_READ)
  unfold checkFaultsColdJunctionThresholds
  simp only []
  split_ifs <;> simp_all [severity]

theorem tcThresholds_log {β : Type} (H : Header) (spi : Spi β) (p : Port β) :
    (checkFaultsThermocoupleThresholds H spi p).2.log
      = (registerReadByte spi p H.ADDRESS_SR_READ).2.log := by
  unfold checkFaultsThermocoupleThresholds
  simp only []
  split_ifs <;> rfl

theorem cjThresholds_log {β : Type} (H : Header) (spi : Spi β) (p : Port β) :
    (checkFaultsColdJunctionThresholds H spi p).2.log
      = (registerReadByte spi p H.ADDRESS_SR_READ).2.log := by
  unfold checkFaultsColdJunctionThresholds
  simp only []
  split_ifs <;> rfl

/-- The three thermocouple flags of a byte are those of its `0x4C` group. -/
theorem tc_group : ∀ b, b < 256 →
    (b &&& 0x4C) &&& 0x40 = b &&& 0x40 ∧ (b &&& 0x4C) &&& 0x08 = b &&& 0x08 ∧
      (b &&& 0x4C) &&& 0x04 = b &&& 0x04 := by
  decide!

/-- The three cold-junction flags of a byte are those of its `0xB0` group. -/
theorem cj_group : ∀ b, b < 256 →
    (b &&& 0xB0) &&& 0x80 = b &&& 0x80 ∧ (b &&& 0xB0) &&& 0x20 = b &&& 0x20 ∧
      (b &&& 0xB0) &&& 0x10 = b &&& 0x10 := by
  decide!

/-- The moved byte shows each cold-junction flag at its thermocouple position. -/
theorem cjAsTc_flags : ∀ b, b < 256 →
    (cjAsTc b &&& 0x40 = 0 ↔ b &&& 0x80 = 0) ∧ (cjAsTc b &&& 0x08 = 0 ↔ b &&& 0x20 = 0) ∧
      (cjAsTc b &&& 0x04 = 0 ↔ b &&& 0x10 = 0) := by
  decide!

/-- C13: `checkFaultsThermocoupleThresholds` performs a single read, of the
status register, and for the status byte `b` it returns the severity code of
the flags `R = (b AND 0x40 != 0)`, `H = (b AND 0x08 != 0)`,
`L = (b AND 0x04 != 0)`: a value in {0,...,5} that is 0 if none is set, 1 if
not R and H, 2 if not R, not H and L, 3 if R alone, 4 if R and H, 5 if R, not H
and L, hence a function of these three bits only; `b = 0x08` gives 1 and
`b = 0x40` gives 3. -/
theorem checkFaultsThermocoupleThresholds_severity {β : Type} (H : Header) (spi : Spi β)
    (p : Port β) :
    ∃ x r,
      (checkFaultsThermocoupleThresholds H spi p).2.log
        = p.log ++ readTxn H.ADDRESS_SR_READ x r ∧
      (checkFaultsThermocoupleThresholds H spi p).1
        = some (severity (decide (r % 256 &&& 0x40 ≠ 0)) (decide (r % 256 &&& 0x08 ≠ 0))
            (decide (r % 256 &&& 0x04 ≠ 0))) ∧
      (r % 256 = 0x08 → (checkFaultsThermocoupleThresholds H spi p).1 = some 1) ∧
      (r % 256 = 0x40 → (checkFaultsThermocoupleThresholds H spi p).1 = some 3) ∧
      (∀ R H L, severity R H L ≤ 5) ∧
      severity false false false = 0 ∧ (∀ L, severity false true L = 1) ∧
      severity false false true = 2 ∧ severity true false false = 3 ∧
      (∀ L, severity true true L = 4) ∧ severity true false true = 5 := by
  obtain ⟨x, r, hlog, hb⟩ := registerReadByte_log spi p H.ADDRESS_SR_READ
  have hc := tcThresholds_code H spi p
  rw [hb] at hc
  refine ⟨x, r, ?_, hc, ?_, ?_, by decide, by decide, by decide, by decide, by decide,
    by decide, by decide⟩
  · rw [tcThresholds_log, hlog]
  · intro h
    rw [hc, h]
    decide
  · intro h
    rw [hc, h]
    decide

/-- C14: the cold-junction classifier is the thermocouple classifier over the
bit group `0x80, 0x20, 0x10` in place of `0x40, 0x08, 0x04`: on a status byte
`b` it returns what `checkFaultsThermocoupleThresholds` returns on any byte
whose `0x4C` group is `b`'s cold-junction flags moved to the thermocouple
positions; its result is the same for two status bytes that agree on the bits
`0xB0` (so it is independent of the bits `0x4C`), and the thermocouple result is
the same for two status bytes that agree on the bits `0x4C` (independent of the
bits `0xB0`). -/
theorem checkFaultsColdJunctionThresholds_mirrors {β γ : Type} (H : Header) (spi : Spi β)
    (p : Port β) (spi' : Spi γ) (p' : Port γ) :
    ((registerReadByte spi' p' H.ADDRESS_SR_READ).1 &&& 0x4C
        = cjAsTc (registerReadByte spi p H.ADDRESS_SR_READ).1 →
      (checkFaultsColdJunctionThresholds H spi p).1
        = (checkFaultsThermocoupleThresholds H spi' p').1) ∧
    ((registerReadByte spi' p' H.ADDRESS_SR_READ).1 &&& 0xB0
        = (registerReadByte spi p H.ADDRESS_SR_READ).1 &&& 0xB0 →
      (checkFaultsColdJunctionThresholds H spi' p').1
        = (checkFaultsColdJunctionThresholds H spi p).1) ∧
    ((registerReadByte spi' p' H.ADDRESS_SR_READ).1 &&& 0x4C
        = (registerReadByte spi p H.ADDRESS_SR_READ).1 &&& 0x4C →
      (checkFaultsThermocoupleThresholds H spi' p').1
        = (checkFaultsThermocoupleThresholds H spi p).1) := by
  have hb := registerReadByte_lt spi p H.ADDRESS_SR_READ
  have hb' := registerReadByte_lt spi' p' H.ADDRESS_SR_READ
  obtain ⟨t1, t2, t3⟩ := tc_group _ hb
  obtain ⟨t1', t2', t3'⟩ := tc_group _ hb'
  obtain ⟨c1, c2, c3⟩ := cj_group _ hb
  obtain ⟨c1', c2', c3'⟩ := cj_group _ hb'
  obtain ⟨m1, m2, m3⟩ := cjAsTc_flags _ hb
  refine ⟨?_, ?_, ?_⟩
  · intro h
    rw [cjThresholds_code, tcThresholds_code, ← t1', ← t2', ← t3', h]
    simp only [ne_eq, m1, m2, m3]
  · intro h
    rw [cjThresholds_code, cjThresholds_code, ← c1', ← c2', ← c3', h, c1, c2, c3]
  · intro h
    rw [tcThresholds_code, tcThresholds_code, ← t1', ← t2', ← t3', h, t1, t2, t3]

theorem checkFaultsColdJunctionThresholds_mirrors_witness :
    (registerReadByte regFileSpi (regFilePort (fun a => if a = 0x0F then 0x48 else 0))
        datasheet.ADDRESS_SR_READ).1 &&& 0x4C
      = cjAsTc (registerReadByte regFileSpi
          (regFilePort (fun a => if a = 0x0F then 0xA0 else 0)) datasheet.ADDRESS_SR_READ).1 ∧
    (checkFaultsColdJunctionThresholds datasheet regFileSpi
        (regFilePort (fun a => if a = 0x0F then 0xA0 else 0))).1
      = (checkFaultsThermocoupleThresholds datasheet regFileSpi
        (regFilePort (fun a => if a = 0x0F then 0x48 else 0))).1 :=
  ⟨by decide,
    (checkFaultsColdJunctionThresholds_mirrors datasheet regFileSpi
      (regFilePort (fun a => if a = 0x0F then 0xA0 else 0)) regFileSpi
      (regFilePort (fun a => if a = 0x0F then 0x48 else 0))).1 (by decide)⟩

/-! ## Threshold and offset setters: proofs -/

theorem f32_intCast (k : ℤ) (hk : |k| < 2 ^ 24) : f32 (k : ℚ) = k := by
  have := f32_exact k 0 hk
  simpa using this

theorem truncZ_intCast (k : ℤ) : truncZ (k : ℚ) = k := by
  unfold truncZ
  split_ifs <;> simp

theorem toInt8_mod (z : ℤ) : (toInt8 z % 256) = z % 256 := by
  unfold toInt8
  split_ifs <;> omega

theorem intBits_byte (z : ℤ) : intBits z % 256 = (z % 256).toNat := by
  unfold intBits
  omega

/-- C15: `coldJunctionOffset` rejects every `t > 7.9375` and every `t < -8.0`
(8.0 and -8.1 among them) with `false`, leaving state and port (no bus
transaction) as they were; for every multiple `t = k/16` of 1/16 in
[-8.0, 7.9375] it returns `true` and issues exactly one write, to the
cold-junction offset register, of the 8-bit two's-complement encoding of
`k = 16*t`; 7.9375 gives byte 127 and -8.0 gives byte 0x80. -/
theorem coldJunctionOffset_contract {β : Type} (H : Header) (spi : Spi β) (s : State)
    (p : Port β) :
    (∀ t : ℚ, t > 7.9375 ∨ t < -8.0 → coldJunctionOffset H spi s p t = (false, s, p)) ∧
    coldJunctionOffset H spi s p 8.0 = (false, s, p) ∧
    coldJunctionOffset H spi s p (-8.1) = (false, s, p) ∧
    (∀ k : ℤ, -128 ≤ k → k ≤ 127 →
      ∃ x y,
        (coldJunctionOffset H spi s p ((k : ℚ) / 16)).1 = true ∧
        (coldJunctionOffset H spi s p ((k : ℚ) / 16)).2.1 = s ∧
        (coldJunctionOffset H spi s p ((k : ℚ) / 16)).2.2.log
          = p.log ++ writeTxn H.ADDRESS_CJTO_WRITE ((k % 256).toNat) x y) ∧
    (∃ x y, (coldJunctionOffset H spi s p 7.9375).2.2.log
      = p.log ++ writeTxn H.ADDRESS_CJTO_WRITE 127 x y) ∧
    (∃ x y, (coldJunctionOffset H spi s p (-8.0)).2.2.log
      = p.log ++ writeTxn H.ADDRESS_CJTO_WRITE 0x80 x y) := by
  have hrej : ∀ t : ℚ, t > 7.9375 ∨ t < -8.0 → coldJunctionOffset H spi s p t = (false, s, p) := by
    intro t ht
    simp only [coldJunctionOffset, ht, if_true]
  have hacc : ∀ k : ℤ, -128 ≤ k → k ≤ 127 →
      ∃ x y,
        (coldJunctionOffset H spi s p ((k : ℚ) / 16)).1 = true ∧
        (coldJunctionOffset H spi s p ((k : ℚ) / 16)).2.1 = s ∧
        (coldJunctionOffset H spi s p ((k : ℚ) / 16)).2.2.log
          = p.log ++ writeTxn H.ADDRESS_CJTO_WRITE ((k % 256).toNat) x y := by
    intro k hlo hhi
    have h1 : ((k : ℚ) / 16) ≤ 7.9375 := by
      have : (k : ℚ) ≤ 127 := by exact_mod_cast hhi
      norm_num
      linarith
    have h2 : (-8.0 : ℚ) ≤ (k : ℚ) / 16 := by
      have : (-128 : ℚ) ≤ k := by exact_mod_cast hlo
      norm_num
      linarith
    have hcond : ¬ ((k : ℚ) / 16 > 7.9375 ∨ (k : ℚ) / 16 < -8.0) := by
      rintro (h | h)
      · exact absurd h (not_lt.mpr h1)
      · exact absurd h (not_lt.mpr h2)
    have h16 : f32 16 = 16 := by
      have := f32_intCast 16 (by norm_num)
      simpa using this
    have hprod : f32 ((k : ℚ) / 16 * 16) = k := by
      rw [div_mul_cancel₀ _ (by norm_num : (16 : ℚ) ≠ 0)]
      exact f32_intCast k (by rw [abs_lt]; constructor <;> omega)
    obtain ⟨x, y, hlog⟩ := registerWriteByte_log spi p H.ADDRESS_CJTO_WRITE ((k % 256).toNat)
    refine ⟨x, y, ?_, ?_, ?_⟩
    · simp only [coldJunctionOffset, hcond, if_false, registerWriteByte]
    · simp only [coldJunctionOffset, hcond, if_false]
    · simp only [coldJunctionOffset, hcond, if_false, h16, hprod, truncZ_intCast, toInt8_mod]
      exact hlog
  refine ⟨hrej, hrej _ (Or.inl (by norm_num)), hrej _ (Or.inr (by norm_num)), hacc, ?_, ?_⟩
  · obtain ⟨x, y, -, -, h⟩ := hacc 127 (by norm_num) (by norm_num)
    refine ⟨x, y, ?_⟩
    have e : ((127 : ℤ) : ℚ) / 16 = 7.9375 := by norm_num
    rw [e] at h
    exact h
  · obtain ⟨x, y, -, -, h⟩ := hacc (-128) (by norm_num) (by norm_num)
    refine ⟨x, y, ?_⟩
    have e : ((-128 : ℤ) : ℚ) / 16 = -8.0 := by norm_num
    rw [e] at h
    exact h

/-- Both bytes `setFaultThresholds` computes from `int16_t` value `E` are its
low byte: `0xFF00 >> 8` is `0xFF`. -/
theorem threshold_bytes (E : ℤ) (hlo : -32768 ≤ E) (hhi : E ≤ 32767) :
    (intBits (toInt16 ((truncZ ((E : ℚ) / 4 * 4) % 65536).toNat)) &&& (0xFF00 >>> 8)) % 256
      = (E % 256).toNat ∧
    (intBits (toInt16 ((truncZ ((E : ℚ) / 4 * 4) % 65536).toNat)) &&& 0x00FF) % 256
      = (E % 256).toNat := by
  have h1 : truncZ ((E : ℚ) / 4 * 4) = E := by
    rw [div_mul_cancel₀ _ (by norm_num : (4 : ℚ) ≠ 0)]
    exact truncZ_intCast E
  have h2 : toInt16 ((E % 65536).toNat) = E := by
    unfold toInt16
    split_ifs <;> omega
  have h3 : (0xFF00 >>> 8 : Nat) = 0xFF := by decide
  rw [h1, h2, h3, and_255, Nat.mod_mod, intBits_byte]
  exact ⟨rfl, rfl⟩

/-- C16 (the code at the failing inputs): for the thermocouple high-threshold
and low-threshold selectors and every temperature `t = E/4` with `E` an
integer in the signed 16-bit range, `setFaultThresholds` writes the low byte
`E AND 0xFF` to the threshold's high-byte register as well as to its low-byte
register: in `(temperature_multi_byte)&(0xFF00) >> 8` the shift applies to the
mask. -/
theorem setFaultThresholds_writes_low_byte_twice {β : Type} (H : Header) (spi : Spi β)
    (s : State) (p : Port β) (E : ℤ) (hlo : -32768 ≤ E) (hhi : E ≤ 32767)
    (h1 : H.MASK_TC_FAULT_THRESHOLD_HIGH ≠ H.MASK_CJ_FAULT_THRESHOLD_HIGH)
    (h2 : H.MASK_TC_FAULT_THRESHOLD_HIGH ≠ H.MASK_CJ_FAULT_THRESHOLD_LOW)
    (h3 : H.MASK_TC_FAULT_THRESHOLD_LOW ≠ H.MASK_CJ_FAULT_THRESHOLD_HIGH)
    (h4 : H.MASK_TC_FAULT_THRESHOLD_LOW ≠ H.MASK_CJ_FAULT_THRESHOLD_LOW)
    (h5 : H.MASK_TC_FAULT_THRESHOLD_LOW ≠ H.MASK_TC_FAULT_THRESHOLD_HIGH) :
    (∃ x0 y0 x1 y1,
      (setFaultThresholds H spi s p H.MASK_TC_FAULT_THRESHOLD_HIGH ((E : ℚ) / 4)).2.2.log
        = p.log ++ writeTxn H.ADDRESS_LTHFTH_WRITE ((E % 256).toNat) x0 y0
            ++ writeTxn H.ADDRESS_LTHFTL_WRITE ((E % 256).toNat) x1 y1) ∧
    (∃ x0 y0 x1 y1,
      (setFaultThresholds H spi s p H.MASK_TC_FAULT_THRESHOLD_LOW ((E : ℚ) / 4)).2.2.log
        = p.log ++ writeTxn H.ADDRESS_LTLFTH_WRITE ((E % 256).toNat) x0 y0
            ++ writeTxn H.ADDRESS_LTLFTL_WRITE ((E % 256).toNat) x1 y1) := by
  obtain ⟨hb0, hb1⟩ := threshold_bytes E hlo hhi
  constructor
  · obtain ⟨x0, y0, hl0⟩ := registerWriteByte_log spi p H.ADDRESS_LTHFTH_WRITE ((E % 256).toNat)
    obtain ⟨x1, y1, hl1⟩ := registerWriteByte_log spi
      (registerWriteByte spi p H.ADDRESS_LTHFTH_WRITE ((E % 256).toNat)).2
      H.ADDRESS_LTHFTL_WRITE ((E % 256).toNat)
    refine ⟨x0, y0, x1, y1, ?_⟩
    simp only [setFaultThresholds, h1, h2, if_false, if_true, hb0, hb1]
    have ht : (registerWriteByte spi p H.ADDRESS_LTHFTH_WRITE ((E % 256).toNat)).1 = true := rfl
    simp only [ht, if_true]
    rw [hl1, hl0]
  · obtain ⟨x0, y0, hl0⟩ := registerWriteByte_log spi p H.ADDRESS_LTLFTH_WRITE ((E % 256).toNat)
    obtain ⟨x1, y1, hl1⟩ := registerWriteByte_log spi
      (registerWriteByte spi p H.ADDRESS_LTLFTH_WRITE ((E % 256).toNat)).2
      H.ADDRESS_LTLFTL_WRITE ((E % 256).toNat)
    refine ⟨x0, y0, x1, y1, ?_⟩
    simp only [setFaultThresholds, h3, h4, h5, if_false, if_true, hb0, hb1]
    have ht : (registerWriteByte spi p H.ADDRESS_LTLFTH_WRITE ((E % 256).toNat)).1 = true := rfl
    simp only [ht, if_true]
    rw [hl1, hl0]

theorem setFaultThresholds_writes_low_byte_twice_witness :
    (∃ x0 y0 x1 y1,
      (setFaultThresholds datasheet regFileSpi onDemandState (regFilePort roomRegs)
        datasheet.MASK_TC_FAULT_THRESHOLD_HIGH ((400 : ℤ) / 4)).2.2.log
        = (regFilePort roomRegs).log
            ++ writeTxn datasheet.ADDRESS_LTHFTH_WRITE (((400 : ℤ) % 256).toNat) x0 y0
            ++ writeTxn datasheet.ADDRESS_LTHFTL_WRITE (((400 : ℤ) % 256).toNat) x1 y1) ∧
    (setFaultThresholds datasheet regFileSpi onDemandState (regFilePort roomRegs)
      datasheet.MASK_TC_FAULT_THRESHOLD_HIGH 100).2.2.dev.regs 0x05 = 0x90 ∧
    (setFaultThresholds datasheet regFileSpi onDemandState (regFilePort roomRegs)
      datasheet.MASK_TC_FAULT_THRESHOLD_HIGH 100).2.2.dev.regs 0x06 = 0x90 :=
  ⟨(setFaultThresholds_writes_low_byte_twice datasheet regFileSpi onDemandState
      (regFilePort roomRegs) 400 (by decide) (by decide) (by decide) (by decide) (by decide)
      (by decide) (by decide)).1,
    by decide!, by decide!⟩

/-! ## `readTC` without a fresh read: proofs -/

/-- The bus traffic of `registerReadWriteByte`: read, write, read. -/
theorem registerReadWriteByte_log {β : Type} (spi : Spi β) (p : Port β)
    (read_address write_address : Nat) (clear_bits : Int) (val : Nat) :
    ∃ x1 r x2 x3 x4 r',
      (registerReadWriteByte spi p read_address write_address clear_bits val).2.log
        = p.log ++ readTxn read_address x1 r
            ++ writeTxn write_address
                ((((r % 256) &&& intBits clear_bits) ||| val) % 256) x2 x3
            ++ readTxn read_address x4 r' := by
  obtain ⟨x1, r, h1, e1⟩ := registerReadByte_log spi p read_address
  obtain ⟨x2, x3, h2⟩ := registerWriteByte_log spi (registerReadByte spi p read_address).2
    write_address ((((r % 256) &&& intBits clear_bits) % 256 ||| val) % 256)
  obtain ⟨x4, r', h3, -⟩ := registerReadByte_log spi
    (registerWriteByte spi (registerReadByte spi p read_address).2
      write_address ((((r % 256) &&& intBits clear_bits) % 256 ||| val) % 256)).2 read_address
  have hm : ((r % 256) &&& intBits clear_bits) % 256 = (r % 256) &&& intBits clear_bits :=
    Nat.mod_eq_of_lt (lt_of_le_of_lt Nat.and_le_left (Nat.mod_lt _ (by norm_num)))
  rw [hm] at h2 h3
  refine ⟨x1, r, x2, x3, x4, r', ?_⟩
  simp only [registerReadWriteByte, e1, hm]
  rw [h3, h2, h1]

theorem readTC_trigger_port {β : Type} (H : Header) (spi : Spi β) (s : State) (p : Port β) :
    (readTC_trigger H spi s p).2
      = if s.conversion_mode = 0 then
          (registerReadWriteByte spi p H.ADDRESS_CR0_READ H.ADDRESS_CR0_WRITE
            H.CR0_CLEAR_BITS_6 H.CR0_1_SHOT_MODE_ONE_CONVERSION).2
        else p := by
  unfold readTC_trigger setOneShotMode
  split_ifs <;> simp_all

theorem readTC_trigger_prev_TC {β : Type} (H : Header) (spi : Spi β) (s : State) (p : Port β) :
    (readTC_trigger H spi s p).1.prev_TC = s.prev_TC := by
  unfold readTC_trigger setOneShotMode
  split_ifs <;> rfl

theorem readTC_trigger_uninit {β : Type} (H : Header) (spi : Spi β) (s : State) (p : Port β)
    (hinit : s.init_MAX31856 = false) :
    (readTC_trigger H spi s p).1.init_MAX31856 = false := by
  unfold readTC_trigger setOneShotMode
  split_ifs <;> simp [hinit]

/-- What `readTC` does on an uninitialized driver: after the trigger it stops. -/
theorem readTC_uninit {β : Type} (H : Header) (spi : Spi β) (s : State) (p : Port β)
    (now : Nat) (hinit : s.init_MAX31856 = false) :
    readTC H spi s p now
      = (Temp.nan, (readTC_trigger H spi s p).1, (readTC_trigger H spi s p).2) := by
  simp only [readTC, readTC_trigger_uninit H spi s p hinit, if_true]

/-- C11 (amended): on an uninitialized driver `readTC` returns `NAN` and leaves
`init_MAX31856` false; in continuous mode (`conversion_mode != 0`) it changes
neither the driver state nor the port (no bus transaction); in on-demand mode
(`conversion_mode == 0`) the port afterwards is the one left by the one-shot
trigger's read-modify-write of control register 0, whose read, write and
read-back are the only bus transactions (no status or temperature register is
read). -/
theorem readTC_uninitialized {β : Type} (H : Header) (spi : Spi β) (s : State) (p : Port β)
    (now : Nat) (hinit : s.init_MAX31856 = false) :
    (readTC H spi s p now).1 = Temp.nan ∧
    (readTC H spi s p now).2.1.init_MAX31856 = false ∧
    (s.conversion_mode ≠ 0 →
      (readTC H spi s p now).2.1 = s ∧ (readTC H spi s p now).2.2 = p) ∧
    (s.conversion_mode = 0 →
      (readTC H spi s p now).2.2
        = (registerReadWriteByte spi p H.ADDRESS_CR0_READ H.ADDRESS_CR0_WRITE
            H.CR0_CLEAR_BITS_6 H.CR0_1_SHOT_MODE_ONE_CONVERSION).2 ∧
      ∃ x1 r x2 x3 x4 r',
        (readTC H spi s p now).2.2.log
          = p.log ++ readTxn H.ADDRESS_CR0_READ x1 r
              ++ writeTxn H.ADDRESS_CR0_WRITE
                  ((((r % 256) &&& intBits H.CR0_CLEAR_BITS_6)
                    ||| H.CR0_1_SHOT_MODE_ONE_CONVERSION) % 256) x2 x3
              ++ readTxn H.ADDRESS_CR0_READ x4 r') := by
  rw [readTC_uninit H spi s p now hinit]
  refine ⟨rfl, readTC_trigger_uninit H spi s p hinit, ?_, ?_⟩
  · intro hm
    simp only [readTC_trigger, hm, if_false, and_self]
  · intro hm
    have hp := readTC_trigger_port H spi s p
    simp only [hm, if_true] at hp
    refine ⟨hp, ?_⟩
    obtain ⟨x1, r, x2, x3, x4, r', hlog⟩ := registerReadWriteByte_log spi p
      H.ADDRESS_CR0_READ H.ADDRESS_CR0_WRITE H.CR0_CLEAR_BITS_6 H.CR0_1_SHOT_MODE_ONE_CONVERSION
    exact ⟨x1, r, x2, x3, x4, r', by simp only [hp]; exact hlog⟩

/-- C11 (as stated, refuted): an uninitialized driver in on-demand mode on a
register file.  `readTC` returns `NAN`, but it has issued the three bus
transactions of the one-shot trigger: read of control register 0, write of
`0x40` to it, read-back. -/
theorem readTC_uninitialized_uses_bus :
    uninitState.init_MAX31856 = false ∧
    (readTC datasheet regFileSpi uninitState (regFilePort roomRegs) 1).1 = Temp.nan ∧
    (readTC datasheet regFileSpi uninitState (regFilePort roomRegs) 1).2.2.log
      = readTxn 0x00 0 0 ++ writeTxn 0x80 0x40 0 0 ++ readTxn 0x00 0 0x40 ∧
    (readTC datasheet regFileSpi uninitState (regFilePort roomRegs) 1).2.2.log
      ≠ (regFilePort roomRegs).log := by
  decide

theorem readTC_uninitialized_witness :
    uninitState.init_MAX31856 = false ∧
    (readTC datasheet regFileSpi uninitState (regFilePort roomRegs) 1).1 = Temp.nan :=
  ⟨by decide, (readTC_uninitialized datasheet regFileSpi uninitState (regFilePort roomRegs) 1
    (by decide)).1⟩

/-- The tail of `readTC`: cached value, one more status read. -/
theorem readTC_cached_spec {β : Type} (H : Header) (spi : Spi β) (s : State) (p : Port β) :
    (readTC_cached H spi s p).1 = s.prev_TC ∧
    (readTC_cached H spi s p).2.1.prev_TC = s.prev_TC ∧
    (readTC_cached H spi s p).2.1.lastReadTime = s.lastReadTime ∧
    (readTC_cached H spi s p).2.1.thermocouple_conversion_count
      = (s.thermocouple_conversion_count + 1) % 4294967296 ∧
    ∃ x r, (readTC_cached H spi s p).2.2.log = p.log ++ readTxn H.ADDRESS_SR_READ x r := by
  obtain ⟨x, r, hlog, -⟩ := registerReadByte_log spi p H.ADDRESS_SR_READ
  refine ⟨rfl, rfl, rfl, rfl, x, r, ?_⟩
  simp only [readTC_cached, tcThresholds_log, hlog]

/-- What `readTC` does when the status byte is nonzero. -/
theorem readTC_fault {β : Type} (H : Header) (spi : Spi β) (s : State) (p : Port β) (now : Nat)
    (hinit : (readTC_trigger H spi s p).1.init_MAX31856 = true)
    (hstatus : (registerReadByte spi (readTC_trigger H spi s p).2 H.ADDRESS_SR_READ).1 ≠ 0) :
    readTC H spi s p now
      = readTC_cached H spi (calculateDelayTime (readTC_trigger H spi s p).1)
          (registerReadByte spi (readTC_trigger H spi s p).2 H.ADDRESS_SR_READ).2 := by
  simp [readTC, hinit, checkFaultsThermocoupleConnection, hstatus]

/-- What `readTC` does when the status byte is zero and the read is throttled. -/
theorem readTC_throttle {β : Type} (H : Header) (spi : Spi β) (s : State) (p : Port β)
    (now : Nat)
    (hinit : (readTC_trigger H spi s p).1.init_MAX31856 = true)
    (hstatus : (registerReadByte spi (readTC_trigger H spi s p).2 H.ADDRESS_SR_READ).1 = 0)
    (hel : elapsed s now ≤ (calculateDelayTime (readTC_trigger H spi s p).1).conversion_time) :
    readTC H spi s p now
      = readTC_cached H spi
          { calculateDelayTime (readTC_trigger H spi s p).1 with lastReadTime := timeMicros now }
          (registerReadByte spi (readTC_trigger H spi s p).2 H.ADDRESS_SR_READ).2 := by
  have he : elapsed (calculateDelayTime (readTC_trigger H spi s p).1) now = elapsed s now := by
    simp only [elapsed, calculateDelayTime, readTC_trigger_lastReadTime]
  simp [readTC, hinit, checkFaultsThermocoupleConnection, hstatus, he, hel]

/-- C12: for an initialized driver whose one-shot trigger, if any, verifies, and
whose status register reads as a nonzero byte, `readTC` returns the cached
`prev_TC`, leaves `prev_TC` as it was, and after the trigger issues only two
reads, both of the status register (none of a temperature register);
`checkFaultsThermocoupleConnection` returns `true` exactly when the status
byte is zero. -/
theorem readTC_connection_fault {β : Type} (H : Header) (spi : Spi β) (s : State) (p : Port β)
    (now : Nat)
    (hinit : s.init_MAX31856 = true)
    (htrig : s.conversion_mode = 0 →
      (setOneShotMode H spi s p H.CR0_1_SHOT_MODE_ONE_CONVERSION).1 = true)
    (hstatus : (registerReadByte spi (readTC_trigger H spi s p).2 H.ADDRESS_SR_READ).1 ≠ 0) :
    (readTC H spi s p now).1 = s.prev_TC ∧
    (readTC H spi s p now).2.1.prev_TC = s.prev_TC ∧
    (∃ x r x' r',
      (readTC H spi s p now).2.2.log
        = (readTC_trigger H spi s p).2.log ++ readTxn H.ADDRESS_SR_READ x r
            ++ readTxn H.ADDRESS_SR_READ x' r') ∧
    (∀ q : Port β, (checkFaultsThermocoupleConnection H spi q).1 = true
      ↔ (registerReadByte spi q H.ADDRESS_SR_READ).1 = 0) := by
  rw [readTC_fault H spi s p now (readTC_trigger_init H spi s p hinit htrig) hstatus]
  obtain ⟨h1, h2, -, -, x', r', hlog⟩ := readTC_cached_spec H spi
    (calculateDelayTime (readTC_trigger H spi s p).1)
    (registerReadByte spi (readTC_trigger H spi s p).2 H.ADDRESS_SR_READ).2
  obtain ⟨x, r, hlog0, -⟩ := registerReadByte_log spi (readTC_trigger H spi s p).2
    H.ADDRESS_SR_READ
  have hp : (calculateDelayTime (readTC_trigger H spi s p).1).prev_TC = s.prev_TC := by
    simp only [calculateDelayTime, readTC_trigger_prev_TC]
  refine ⟨h1.trans hp, h2.trans hp, ⟨x, r, x', r', ?_⟩, ?_⟩
  · rw [hlog, hlog0]
  · intro q
    simp only [checkFaultsThermocoupleConnection, decide_eq_true_eq]

theorem readTC_connection_fault_witness :
    continuousState.init_MAX31856 = true ∧
    (registerReadByte regFileSpi (readTC_trigger datasheet regFileSpi continuousState
      (regFilePort faultRegs)).2 datasheet.ADDRESS_SR_READ).1 ≠ 0 ∧
    (readTC datasheet regFileSpi continuousState (regFilePort faultRegs) 1).1
      = continuousState.prev_TC :=
  ⟨by decide, by decide,
    (readTC_connection_fault datasheet regFileSpi continuousState (regFilePort faultRegs) 1
      (by decide) (fun h => absurd h (by decide)) (by decide)).1⟩

/-- C17 (amended): for an initialized driver whose one-shot trigger, if any,
verifies, with status byte 0 and elapsed time not greater than the recomputed
`conversion_time` (a throttled read), `readTC` returns the cached `prev_TC`,
leaves `prev_TC` as it was, counts the read, reads no temperature register
(after the trigger only the status register, twice), and sets `lastReadTime`
to the current time stamp `time(NULL)*1000000` (modulo `2^32`). -/
theorem readTC_throttled_read {β : Type} (H : Header) (spi : Spi β) (s : State) (p : Port β)
    (now : Nat)
    (hinit : s.init_MAX31856 = true)
    (htrig : s.conversion_mode = 0 →
      (setOneShotMode H spi s p H.CR0_1_SHOT_MODE_ONE_CONVERSION).1 = true)
    (hstatus : (registerReadByte spi (readTC_trigger H spi s p).2 H.ADDRESS_SR_READ).1 = 0)
    (hel : elapsed s now ≤ (calculateDelayTime (readTC_trigger H spi s p).1).conversion_time) :
    (readTC H spi s p now).1 = s.prev_TC ∧
    (readTC H spi s p now).2.1.prev_TC = s.prev_TC ∧
    (readTC H spi s p now).2.1.lastReadTime = timeMicros now ∧
    (readTC H spi s p now).2.1.thermocouple_conversion_count
      = ((readTC_trigger H spi s p).1.thermocouple_conversion_count + 1) % 4294967296 ∧
    (∃ x r x' r',
      (readTC H spi s p now).2.2.log
        = (readTC_trigger H spi s p).2.log ++ readTxn H.ADDRESS_SR_READ x r
            ++ readTxn H.ADDRESS_SR_READ x' r') := by
  rw [readTC_throttle H spi s p now (readTC_trigger_init H spi s p hinit htrig) hstatus hel]
  obtain ⟨h1, h2, h3, h4, x', r', hlog⟩ := readTC_cached_spec H spi
    { calculateDelayTime (readTC_trigger H spi s p).1 with lastReadTime := timeMicros now }
    (registerReadByte spi (readTC_trigger H spi s p).2 H.ADDRESS_SR_READ).2
  obtain ⟨x, r, hlog0, -⟩ := registerReadByte_log spi (readTC_trigger H spi s p).2
    H.ADDRESS_SR_READ
  have hp : (calculateDelayTime (readTC_trigger H spi s p).1).prev_TC = s.prev_TC := by
    simp only [calculateDelayTime, readTC_trigger_prev_TC]
  refine ⟨h1.trans hp, h2.trans hp, h3, h4, ⟨x, r, x', r', ?_⟩⟩
  rw [hlog, hlog0]

/-- C17 (as stated, refuted): an initialized driver in continuous mode with
`lastReadTime = 950000`, read at `time(NULL) = 1` on a register file with
status `0`.  The elapsed time, 50000, does not exceed the delay, 82000, so the
read is throttled and returns the cached 21.5, yet `lastReadTime` has become
`1000000`. -/
theorem readTC_throttled_updates_lastReadTime :
    pollingState.init_MAX31856 = true ∧
    (registerReadByte regFileSpi (readTC_trigger datasheet regFileSpi pollingState
      (regFilePort roomRegs)).2 datasheet.ADDRESS_SR_READ).1 = 0 ∧
    elapsed pollingState 1 = 50000 ∧
    (calculateDelayTime (readTC_trigger datasheet regFileSpi pollingState
      (regFilePort roomRegs)).1).conversion_time = 82000 ∧
    (readTC datasheet regFileSpi pollingState (regFilePort roomRegs) 1).1 = Temp.val 21.5 ∧
    pollingState.lastReadTime = 950000 ∧
    (readTC datasheet regFileSpi pollingState (regFilePort roomRegs) 1).2.1.lastReadTime
      = 1000000 := by
  refine ⟨by decide, by decide, by decide, by decide!, by decide!, by decide, by decide!⟩

theorem readTC_throttled_read_witness :
    pollingState.init_MAX31856 = true ∧
    (registerReadByte regFileSpi (readTC_trigger datasheet regFileSpi pollingState
      (regFilePort roomRegs)).2 datasheet.ADDRESS_SR_READ).1 = 0 ∧
    elapsed pollingState 1 ≤ (calculateDelayTime (readTC_trigger datasheet regFileSpi
      pollingState (regFilePort roomRegs)).1).conversion_time ∧
    (readTC datasheet regFileSpi pollingState (regFilePort roomRegs) 1).2.1.lastReadTime
      = timeMicros 1 :=
  ⟨by decide, by decide, by decide!,
    (readTC_throttled_read datasheet regFileSpi pollingState (regFilePort roomRegs) 1
      (by decide) (fun h => absurd h (by decide)) (by decide) (by decide!)).2.2.1⟩

/-! ## Sequences of operations: proofs -/

/-- No operation sets `init_MAX31856` once it is false. -/
theorem perform_uninit {β : Type} (H : Header) (spi : Spi β) (sp : State × Port β) (op : Op)
    (hinit : sp.1.init_MAX31856 = false) :
    (perform H spi sp op).1.init_MAX31856 = false := by
  cases op with
  | readTC now =>
    simp only [perform, readTC_uninit H spi sp.1 sp.2 now hinit]
    exact readTC_trigger_uninit H spi sp.1 sp.2 hinit
  | readCJ => simp only [perform, readCJ, hinit, if_true]
  | checkFaultsThermocoupleThresholds => exact hinit
  | checkFaultsColdJunctionThresholds => exact hinit
  | checkFaultsThermocoupleConnection => exact hinit
  | setConversionMode val =>
    simp only [perform, setConversionMode]; split_ifs <;> exact hinit
  | setOneShotMode val =>
    simp only [perform, setOneShotMode]; split_ifs <;> exact hinit
  | setOpenCircuitFaultDetection val =>
    simp only [perform, setOpenCircuitFaultDetection]; split_ifs <;> exact hinit
  | setColdJunctionDisable val =>
    simp only [perform, setColdJunctionDisable]; split_ifs <;> exact hinit
  | setFaultMode val =>
    simp only [perform, setFaultMode]; split_ifs <;> exact hinit
  | setFaultStatusClear val =>
    simp only [perform, setFaultStatusClear]; split_ifs <;> exact hinit
  | setEmiFilterFreq val =>
    simp only [perform, setEmiFilterFreq]; split_ifs <;> exact hinit
  | setNumSamplesAvg val =>
    simp only [perform, setNumSamplesAvg]; split_ifs <;> exact hinit
  | setThermocoupleType val =>
    simp only [perform, setThermocoupleType]; split_ifs <;> exact hinit
  | setFaultMasks val enable =>
    simp only [perform, setFaultMasks]; split_ifs <;> exact hinit
  | setFaultThresholds val temperature =>
    simp only [perform, setFaultThresholds]; split_ifs <;> exact hinit
  | coldJunctionOffset temperature =>
    simp only [perform, coldJunctionOffset]; split_ifs <;> exact hinit

/-- C18: once `init_MAX31856` is false it stays false: after any single
operation (`readTC`, `readCJ`, the three fault checks, every setter, the
threshold and offset setters) with any arguments on any bus, and therefore
after any sequence of operations. -/
theorem uninitialized_is_latched {β : Type} (H : Header) (spi : Spi β) (s : State)
    (p : Port β) (hinit : s.init_MAX31856 = false) :
    (∀ op : Op, (perform H spi (s, p) op).1.init_MAX31856 = false) ∧
    (∀ ops : List Op, (performAll H spi (s, p) ops).1.init_MAX31856 = false) := by
  refine ⟨fun op => perform_uninit H spi (s, p) op hinit, ?_⟩
  intro ops
  suffices h : ∀ (ops : List Op) (sp : State × Port β), sp.1.init_MAX31856 = false →
      (performAll H spi sp ops).1.init_MAX31856 = false from h ops (s, p) hinit
  intro ops
  induction ops with
  | nil => intro sp h; exact h
  | cons op rest ih =>
    intro sp h
    exact ih (perform H spi sp op) (perform_uninit H spi sp op h)

theorem uninitialized_is_latched_witness :
    uninitState.init_MAX31856 = false ∧
    (performAll datasheet regFileSpi (uninitState, regFilePort roomRegs)
      [Op.setNumSamplesAvg 0x10, Op.setConversionMode 0x80, Op.readTC 5, Op.readCJ]).1.init_MAX31856
      = false :=
  ⟨by decide, (uninitialized_is_latched datasheet regFileSpi uninitState (regFilePort roomRegs)
    (by decide)).2 _⟩

/-- C20: each of the five setters with a host-side mirror stores the value
derived from a whitelisted input in its mirror field whatever the bus answers,
hence also when the read-back differs and the setter returns `false`:
`conversion_mode` is 1 for normally-on and 0 for normally-off,
`cold_junction_enabled` is 1 for enable and 0 for disable, `filter_mode` is the
input byte, `samples` is `1 << (val >> 4)`, `voltage_mode` tells whether the
input is one of the two voltage-mode gains. -/
theorem mirrors_committed_before_verification {β : Type} (H : Header) (spi : Spi β)
    (s : State) (p : Port β) (val : Nat) :
    (val = H.CR0_CONV_MODE_NORMALLY_OFF ∨ val = H.CR0_CONV_MODE_NORMALLY_ON →
      (setConversionMode H spi s p val).2.1.conversion_mode
        = if val = H.CR0_CONV_MODE_NORMALLY_ON then 1 else 0) ∧
    (val = H.CR0_COLD_JUNC_ENABLE ∨ val = H.CR0_COLD_JUNC_DISABLE →
      (setColdJunctionDisable H spi s p val).2.1.cold_junction_enabled
        = if val = H.CR0_COLD_JUNC_ENABLE then 1 else 0) ∧
    (val = H.CR0_FILTER_OUT_60Hz ∨ val = H.CR0_FILTER_OUT_50Hz →
      (setEmiFilterFreq H spi s p val).2.1.filter_mode = val) ∧
    (val = H.CR1_AVG_TC_SAMPLES_1 ∨ val = H.CR1_AVG_TC_SAMPLES_2
        ∨ val = H.CR1_AVG_TC_SAMPLES_4 ∨ val = H.CR1_AVG_TC_SAMPLES_8
        ∨ val = H.CR1_AVG_TC_SAMPLES_16 →
      (setNumSamplesAvg H spi s p val).2.1.samples = 1 <<< (val >>> 4)) ∧
    (val = H.CR1_TC_TYPE_B ∨ val = H.CR1_TC_TYPE_E ∨ val = H.CR1_TC_TYPE_J
        ∨ val = H.CR1_TC_TYPE_K ∨ val = H.CR1_TC_TYPE_N ∨ val = H.CR1_TC_TYPE_R
        ∨ val = H.CR1_TC_TYPE_S ∨ val = H.CR1_TC_TYPE_T
        ∨ val = H.CR1_TC_TYPE_VOLT_MODE_GAIN_8 ∨ val = H.CR1_TC_TYPE_VOLT_MODE_GAIN_32 →
      (setThermocoupleType H spi s p val).2.1.voltage_mode
        = decide (val = H.CR1_TC_TYPE_VOLT_MODE_GAIN_8
            ∨ val = H.CR1_TC_TYPE_VOLT_MODE_GAIN_32)) := by
  refine ⟨?_, ?_, ?_, ?_, ?_⟩
  · intro h; simp only [setConversionMode, h, if_true]
  · intro h; simp only [setColdJunctionDisable, h, if_true]
  · intro h; simp only [setEmiFilterFreq, h, if_true]
  · intro h; simp only [setNumSamplesAvg, h, if_true]
  · intro h; simp only [setThermocoupleType, h, if_true]

theorem mirrors_committed_before_verification_witness :
    (setConversionMode datasheet stuckLowSpi onDemandState stuckLowPort 0x80).1 = false ∧
    (setConversionMode datasheet stuckLowSpi onDemandState stuckLowPort 0x80).2.1.conversion_mode
      = 1 ∧
    onDemandState.conversion_mode = 0 :=
  ⟨by decide,
    (mirrors_committed_before_verification datasheet stuckLowSpi onDemandState stuckLowPort
      0x80).1 (by decide),
    by decide⟩

theorem readTC_samples {β : Type} (H : Header) (spi : Spi β) (s : State) (p : Port β)
    (now : Nat) : (readTC H spi s p now).2.1.samples = s.samples := by
  have ht : (readTC_trigger H spi s p).1.samples = s.samples := by
    unfold readTC_trigger setOneShotMode
    split_ifs <;> rfl
  unfold readTC
  simp only [readTC_cached, calculateDelayTime]
  split_ifs <;> exact ht

/-- What `setNumSamplesAvg` leaves in `samples`. -/
theorem setNumSamplesAvg_samples {β : Type} (H : Header) (spi : Spi β) (s : State)
    (p : Port β) (val : Nat) :
    (setNumSamplesAvg H spi s p val).2.1.samples
      = if val = H.CR1_AVG_TC_SAMPLES_1 ∨ val = H.CR1_AVG_TC_SAMPLES_2
            ∨ val = H.CR1_AVG_TC_SAMPLES_4 ∨ val = H.CR1_AVG_TC_SAMPLES_8
            ∨ val = H.CR1_AVG_TC_SAMPLES_16 then 1 <<< (val >>> 4) else s.samples := by
  unfold setNumSamplesAvg
  split_ifs <;> rfl

/-- A whitelisted sample byte gives one of the five counts. -/
theorem sample_count_of_code (H : Header) (hcodes : SampleCodes H) (val : Nat)
    (hw : val = H.CR1_AVG_TC_SAMPLES_1 ∨ val = H.CR1_AVG_TC_SAMPLES_2
      ∨ val = H.CR1_AVG_TC_SAMPLES_4 ∨ val = H.CR1_AVG_TC_SAMPLES_8
      ∨ val = H.CR1_AVG_TC_SAMPLES_16) :
    1 <<< (val >>> 4) = 1 ∨ 1 <<< (val >>> 4) = 2 ∨ 1 <<< (val >>> 4) = 4
      ∨ 1 <<< (val >>> 4) = 8 ∨ 1 <<< (val >>> 4) = 16 := by
  obtain ⟨c1, c2, c4, c8, c16⟩ := hcodes
  rcases hw with h | h | h | h | h <;> subst h
  · rw [c1]; decide
  · rw [c2]; decide
  · rw [c4]; decide
  · rw [c8]; decide
  · rw [c16]; decide

/-- Every operation keeps `samples` among the five counts. -/
theorem perform_samples {β : Type} (H : Header) (hcodes : SampleCodes H) (spi : Spi β)
    (sp : State × Port β) (op : Op)
    (hs : sp.1.samples = 1 ∨ sp.1.samples = 2 ∨ sp.1.samples = 4 ∨ sp.1.samples = 8
      ∨ sp.1.samples = 16) :
    (perform H spi sp op).1.samples = 1 ∨ (perform H spi sp op).1.samples = 2
      ∨ (perform H spi sp op).1.samples = 4 ∨ (perform H spi sp op).1.samples = 8
      ∨ (perform H spi sp op).1.samples = 16 := by
  cases op with
  | readTC now => simp only [perform, readTC_samples]; exact hs
  | readCJ => simp only [perform, readCJ]; split_ifs <;> exact hs
  | checkFaultsThermocoupleThresholds => exact hs
  | checkFaultsColdJunctionThresholds => exact hs
  | checkFaultsThermocoupleConnection => exact hs
  | setConversionMode val =>
    simp only [perform, setConversionMode]; split_ifs <;> exact hs
  | setOneShotMode val =>
    simp only [perform, setOneShotMode]; split_ifs <;> exact hs
  | setOpenCircuitFaultDetection val =>
    simp only [perform, setOpenCircuitFaultDetection]; split_ifs <;> exact hs
  | setColdJunctionDisable val =>
    simp only [perform, setColdJunctionDisable]; split_ifs <;> exact hs
  | setFaultMode val =>
    simp only [perform, setFaultMode]; split_ifs <;> exact hs
  | setFaultStatusClear val =>
    simp only [perform, setFaultStatusClear]; split_ifs <;> exact hs
  | setEmiFilterFreq val =>
    simp only [perform, setEmiFilterFreq]; split_ifs <;> exact hs
  | setNumSamplesAvg val =>
    simp only [perform, setNumSamplesAvg_samples]
    split_ifs with hw
    · exact sample_count_of_code H hcodes val hw
    · exact hs
  | setThermocoupleType val =>
    simp only [perform, setThermocoupleType]; split_ifs <;> exact hs
  | setFaultMasks val enable =>
    simp only [perform, setFaultMasks]; split_ifs <;> exact hs
  | setFaultThresholds val temperature =>
    simp only [perform, setFaultThresholds]; split_ifs <;> exact hs
  | coldJunctionOffset temperature =>
    simp only [perform, coldJunctionOffset]; split_ifs <;> exact hs

/-- What the constructor leaves in `samples`: the count of a whitelisted byte,
or the byte itself. -/
theorem construct_samples {β : Type} (H : Header) (spi : Spi β) (members : State)
    (p : Port β) (_type _fltr _samples _conversion_mode now : Nat) :
    (construct H spi members p _type _fltr _samples _conversion_mode now).1.samples
      = if _samples = H.CR1_AVG_TC_SAMPLES_1 ∨ _samples = H.CR1_AVG_TC_SAMPLES_2
            ∨ _samples = H.CR1_AVG_TC_SAMPLES_4 ∨ _samples = H.CR1_AVG_TC_SAMPLES_8
            ∨ _samples = H.CR1_AVG_TC_SAMPLES_16 then 1 <<< (_samples >>> 4)
        else _samples := by
  have h1 : ∀ (s : State) (q : Port β) (v : Nat),
      (setThermocoupleType H spi s q v).2.1.samples = s.samples := by
    intro s q v; unfold setThermocoupleType; split_ifs <;> rfl
  have h2 : ∀ (s : State) (q : Port β) (v : Nat),
      (setEmiFilterFreq H spi s q v).2.1.samples = s.samples := by
    intro s q v; unfold setEmiFilterFreq; split_ifs <;> rfl
  have h4 : ∀ (s : State) (q : Port β) (v : Nat),
      (setConversionMode H spi s q v).2.1.samples = s.samples := by
    intro s q v; unfold setConversionMode; split_ifs <;> rfl
  simp only [construct, h4, setNumSamplesAvg_samples, h2, h1]

/-- An unlisted sample byte leaves the constructed driver uninitialized. -/
theorem construct_unlisted_uninit {β : Type} (H : Header) (spi : Spi β) (members : State)
    (p : Port β) (_type _fltr _samples _conversion_mode now : Nat)
    (hw : ¬ (_samples = H.CR1_AVG_TC_SAMPLES_1 ∨ _samples = H.CR1_AVG_TC_SAMPLES_2
      ∨ _samples = H.CR1_AVG_TC_SAMPLES_4 ∨ _samples = H.CR1_AVG_TC_SAMPLES_8
      ∨ _samples = H.CR1_AVG_TC_SAMPLES_16)) :
    (construct H spi members p _type _fltr _samples _conversion_mode now).1.init_MAX31856
      = false := by
  have h4 : ∀ (s : State) (q : Port β) (v : Nat),
      (setConversionMode H spi s q v).2.1.init_MAX31856 = s.init_MAX31856 := by
    intro s q v; unfold setConversionMode; split_ifs <;> rfl
  have h3 : ∀ (s : State) (q : Port β), (setNumSamplesAvg H spi s q _samples).1 = false := by
    intro s q; unfold setNumSamplesAvg; rw [if_neg hw]
  simp only [construct, h4, h3, Bool.and_false, Bool.false_and]

/-- C19 (amended): when the header encodes the count's exponent in bits 6:4 and
the driver is constructed with a whitelisted sample-count byte (and any other
arguments, member defaults and bus), `samples` is one of {1,2,4,8,16} after
construction and after every sequence of operations; after
`setNumSamplesAvg(val)` with a whitelisted `val`, `samples = 2^(val >> 4)`. -/
theorem samples_is_a_count {β : Type} (H : Header) (spi : Spi β) (members : State)
    (p : Port β) (_type _fltr _samples _conversion_mode now : Nat) (ops : List Op)
    (hcodes : SampleCodes H)
    (hw : _samples = H.CR1_AVG_TC_SAMPLES_1 ∨ _samples = H.CR1_AVG_TC_SAMPLES_2
      ∨ _samples = H.CR1_AVG_TC_SAMPLES_4 ∨ _samples = H.CR1_AVG_TC_SAMPLES_8
      ∨ _samples = H.CR1_AVG_TC_SAMPLES_16) :
    ((performAll H spi (construct H spi members p _type _fltr _samples _conversion_mode now)
        ops).1.samples = 1
      ∨ (performAll H spi (construct H spi members p _type _fltr _samples _conversion_mode now)
        ops).1.samples = 2
      ∨ (performAll H spi (construct H spi members p _type _fltr _samples _conversion_mode now)
        ops).1.samples = 4
      ∨ (performAll H spi (construct H spi members p _type _fltr _samples _conversion_mode now)
        ops).1.samples = 8
      ∨ (performAll H spi (construct H spi members p _type _fltr _samples _conversion_mode now)
        ops).1.samples = 16) ∧
    (∀ (s : State) (q : Port β) (val : Nat),
      val = H.CR1_AVG_TC_SAMPLES_1 ∨ val = H.CR1_AVG_TC_SAMPLES_2
        ∨ val = H.CR1_AVG_TC_SAMPLES_4 ∨ val = H.CR1_AVG_TC_SAMPLES_8
        ∨ val = H.CR1_AVG_TC_SAMPLES_16 →
      (setNumSamplesAvg H spi s q val).2.1.samples = 2 ^ (val >>> 4)) := by
  constructor
  · have h0 : ∀ (ops : List Op) (sp : State × Port β),
        (sp.1.samples = 1 ∨ sp.1.samples = 2 ∨ sp.1.samples = 4 ∨ sp.1.samples = 8
          ∨ sp.1.samples = 16) →
        ((performAll H spi sp ops).1.samples = 1 ∨ (performAll H spi sp ops).1.samples = 2
          ∨ (performAll H spi sp ops).1.samples = 4 ∨ (performAll H spi sp ops).1.samples = 8
          ∨ (performAll H spi sp ops).1.samples = 16) := by
      intro ops
      induction ops with
      | nil => intro sp h; exact h
      | cons op rest ih =>
        intro sp h
        exact ih (perform H spi sp op) (perform_samples H hcodes spi sp op h)
    apply h0
    rw [construct_samples, if_pos hw]
    exact sample_count_of_code H hcodes _samples hw
  · intro s q val hv
    rw [setNumSamplesAvg_samples, if_pos hv, Nat.one_shiftLeft]

theorem samples_is_a_count_witness :
    SampleCodes datasheet ∧
    ((performAll datasheet regFileSpi
        (construct datasheet regFileSpi onDemandState (regFilePort roomRegs) 0x03 0x00 0x20 0x00 7)
        [Op.readTC 9, Op.setNumSamplesAvg 0x55, Op.setNumSamplesAvg 0x40]).1.samples = 1
      ∨ (performAll datasheet regFileSpi
        (construct datasheet regFileSpi onDemandState (regFilePort roomRegs) 0x03 0x00 0x20 0x00 7)
        [Op.readTC 9, Op.setNumSamplesAvg 0x55, Op.setNumSamplesAvg 0x40]).1.samples = 2
      ∨ (performAll datasheet regFileSpi
        (construct datasheet regFileSpi onDemandState (regFilePort roomRegs) 0x03 0x00 0x20 0x00 7)
        [Op.readTC 9, Op.setNumSamplesAvg 0x55, Op.setNumSamplesAvg 0x40]).1.samples = 4
      ∨ (performAll datasheet regFileSpi
        (construct datasheet regFileSpi onDemandState (regFilePort roomRegs) 0x03 0x00 0x20 0x00 7)
        [Op.readTC 9, Op.setNumSamplesAvg 0x55, Op.setNumSamplesAvg 0x40]).1.samples = 8
      ∨ (performAll datasheet regFileSpi
        (construct datasheet regFileSpi onDemandState (regFilePort roomRegs) 0x03 0x00 0x20 0x00 7)
        [Op.readTC 9, Op.setNumSamplesAvg 0x55, Op.setNumSamplesAvg 0x40]).1.samples = 16) :=
  ⟨⟨rfl, rfl, rfl, rfl, rfl⟩,
    (samples_is_a_count datasheet regFileSpi onDemandState (regFilePort roomRegs)
      0x03 0x00 0x20 0x00 7 [Op.readTC 9, Op.setNumSamplesAvg 0x55, Op.setNumSamplesAvg 0x40]
      ⟨rfl, rfl, rfl, rfl, rfl⟩ (by decide)).1⟩

/-- C19 (as stated, refuted): constructed with the unrecognized sample-count
byte `0x05`, the driver holds `samples = 5`, which is none of 1, 2, 4, 8, 16
(and it is uninitialized). -/
theorem samples_after_unrecognized_byte :
    (construct datasheet regFileSpi onDemandState (regFilePort roomRegs)
      0x03 0x00 0x05 0x00 0).1.samples = 5 ∧
    (construct datasheet regFileSpi onDemandState (regFilePort roomRegs)
      0x03 0x00 0x05 0x00 0).1.init_MAX31856 = false ∧
    ¬ ((5 : Nat) = 1 ∨ (5 : Nat) = 2 ∨ (5 : Nat) = 4 ∨ (5 : Nat) = 8 ∨ (5 : Nat) = 16) := by
  decide

/-! ## Loss of initialization: proofs -/

/-- A false `init_MAX31856` survives every sequence of operations. -/
theorem performAll_uninit {β : Type} (H : Header) (spi : Spi β) (ops : List Op) :
    ∀ sp : State × Port β, sp.1.init_MAX31856 = false →
      (performAll H spi sp ops).1.init_MAX31856 = false := by
  induction ops with
  | nil => intro sp h; exact h
  | cons op rest ih =>
    intro sp h
    exact ih (perform H spi sp op) (perform_uninit H spi sp op h)

/-- A failed one-shot trigger clears `init_MAX31856`. -/
theorem readTC_trigger_failed {β : Type} (H : Header) (spi : Spi β) (s : State) (p : Port β)
    (hmode : s.conversion_mode = 0)
    (hfail : (setOneShotMode H spi s p H.CR0_1_SHOT_MODE_ONE_CONVERSION).1 = false) :
    (readTC_trigger H spi s p).1.init_MAX31856 = false := by
  simp only [readTC_trigger, hmode, if_true, hfail, Bool.and_false]

/-- C21: initialization can be lost after construction.  For an initialized
driver in on-demand mode on a bus on which the one-shot trigger does not verify
(its read-back differs from the byte written, so `setOneShotMode` returns
`false`), one `readTC` call returns `NAN` and turns `init_MAX31856` from true
to false; from then on, after any further operations and on any bus, every
`readTC` and every `readCJ` call returns `NAN`. -/
theorem initialization_lost_by_failed_trigger {β : Type} (H : Header) (spi : Spi β)
    (s : State) (p : Port β) (now : Nat)
    (hinit : s.init_MAX31856 = true) (hmode : s.conversion_mode = 0)
    (hfail : (setOneShotMode H spi s p H.CR0_1_SHOT_MODE_ONE_CONVERSION).1 = false) :
    (readTC H spi s p now).1 = Temp.nan ∧
    (readTC H spi s p now).2.1.init_MAX31856 = false ∧
    (readTC H spi s p now).2.1.init_MAX31856 ≠ s.init_MAX31856 ∧
    (∀ (γ : Type) (spi' : Spi γ) (q : Port γ) (ops : List Op) (now' : Nat),
      (readTC H spi' (performAll H spi' ((readTC H spi s p now).2.1, q) ops).1
        (performAll H spi' ((readTC H spi s p now).2.1, q) ops).2 now').1 = Temp.nan ∧
      (readCJ H spi' (performAll H spi' ((readTC H spi s p now).2.1, q) ops).1
        (performAll H spi' ((readTC H spi s p now).2.1, q) ops).2).1 = Temp.nan) := by
  have ht := readTC_trigger_failed H spi s p hmode hfail
  have h1 : (readTC H spi s p now).1 = Temp.nan := by
    simp only [readTC, ht, if_true]
  have h2 : (readTC H spi s p now).2.1.init_MAX31856 = false := by
    simp only [readTC, ht, if_true]
  refine ⟨h1, h2, ?_, ?_⟩
  · rw [h2, hinit]
    decide
  intro γ spi' q ops now'
  have h3 := performAll_uninit H spi' ops ((readTC H spi s p now).2.1, q) h2
  constructor
  · rw [readTC_uninit H spi' _ _ now' h3]
  · simp only [readCJ, h3, if_true]

theorem initialization_lost_by_failed_trigger_witness :
    onDemandState.init_MAX31856 = true ∧ onDemandState.conversion_mode = 0 ∧
    (setOneShotMode datasheet stuckLowSpi onDemandState stuckLowPort
      datasheet.CR0_1_SHOT_MODE_ONE_CONVERSION).1 = false ∧
    (setOneShotMode datasheet stuckLowSpi onDemandState stuckLowPort
      datasheet.CR0_1_SHOT_MODE_ONE_CONVERSION).2.2.log
      = readTxn 0x00 0 0 ++ writeTxn 0x80 0x40 0 0 ++ readTxn 0x00 0 0 ∧
    (readTC datasheet stuckLowSpi onDemandState stuckLowPort 1).1 = Temp.nan ∧
    (readTC datasheet stuckLowSpi onDemandState stuckLowPort 1).2.1.init_MAX31856 = false ∧
    (readTC datasheet stuckLowSpi onDemandState stuckLowPort 1).2.1.init_MAX31856
      ≠ onDemandState.init_MAX31856 ∧
    (∀ (γ : Type) (spi' : Spi γ) (q : Port γ) (ops : List Op) (now' : Nat),
      (readTC datasheet spi'
        (performAll datasheet spi'
          ((readTC datasheet stuckLowSpi onDemandState stuckLowPort 1).2.1, q) ops).1
        (performAll datasheet spi'
          ((readTC datasheet stuckLowSpi onDemandState stuckLowPort 1).2.1, q) ops).2
        now').1 = Temp.nan ∧
      (readCJ datasheet spi'
        (performAll datasheet spi'
          ((readTC datasheet stuckLowSpi onDemandState stuckLowPort 1).2.1, q) ops).1
        (performAll datasheet spi'
          ((readTC datasheet stuckLowSpi onDemandState stuckLowPort 1).2.1, q) ops).2).1
        = Temp.nan) :=
  ⟨by decide, by decide, by decide, by decide,
    initialization_lost_by_failed_trigger datasheet stuckLowSpi onDemandState stuckLowPort 1
      (by decide) (by decide) (by decide)⟩

end MAX31856
